import Mathlib

/-!
Verification of the FBGEMM kernel-dispatch engine (ROCm/CK backend).

This file gives a shallow embedding of the dispatch, lookup, heuristic,
validation and grouped-argument-building logic of:
  - fbgemm_gpu/experimental/gen_ai/src/gemm/ck_extensions.hip
    (bf16_gemm, the fp8 rowwise dispatch tables, rowwise_nk_lookup,
     rowwise_heuristic_dispatch, rowwise_dispatch, f8f8_rowwise_wrapper,
     the bf16 grouped entry points)
  - fbgemm_gpu/experimental/gen_ai/src/quantize/ck_extensions/
    fp8_rowwise_grouped/fp8_rowwise_grouped_gemm.hip
    (set_kernel_args, the grouped entry points, get_kernel_via_tuning)
  - the fp8 rowwise preshuffle dispatcher
    (rowwise_preshuffle_heuristic_dispatch, f8f8_rowwise_preshuffle_wrapper)

Kernel variants are opaque callables in the source; we identify each by its
symbol name (a string).  Tensors enter the modelled logic only through their
shapes, so the embedding works on dimension lists / sizes.  Device-side
parallel argument-construction kernels are modelled by their sequential
single-thread-at-a-time semantics (one execution unit per group, processed
in ascending group index; the atomic slot counter becomes a running count).
-/

namespace FBGemmDispatch

/-- Kernel variants are identified by their symbol name. -/
abbrev Kernel := String

/-! ## IntTupleHash and tuple-key equality

The shape-keyed unordered_map tables in ck_extensions.hip use
`std::tuple<int,...>` keys with the custom hasher `IntTupleHash`, which
hashes every component with `std::hash<int>` and combines the component
hashes with XOR.  Key equality is `std::tuple::operator==`, i.e. exact
componentwise equality.  `stdHashInt` models `std::hash<int>` /
`std::hash<int64_t>` (libstdc++: the value cast to `size_t`, i.e. reduced
mod 2^64). -/

/-- Model of std::hash on an integer: the value cast to size_t (mod 2^64). -/
def stdHashInt (z : Int) : Nat := (z.emod (2 ^ 64)).toNat

/-- IntTupleHash on a pair key: XOR of the componentwise hashes.  The
hash function on the components is a parameter so that results hold for
any implementation of std::hash.  Mirrors ck_extensions.hip. -/
def intTupleHash2 (h : Int → Nat) (t : Int × Int) : Nat :=
  (h t.1) ^^^ (h t.2)

/-- IntTupleHash on a triple key: XOR of the componentwise hashes. -/
def intTupleHash3 (h : Int → Nat) (t : Int × Int × Int) : Nat :=
  ((h t.1) ^^^ (h t.2.1)) ^^^ (h t.2.2)

/-- IntTupleHash on a 4-tuple key: XOR of the componentwise hashes. -/
def intTupleHash4 (h : Int → Nat) (t : Int × Int × Int × Int) : Nat :=
  (((h t.1) ^^^ (h t.2.1)) ^^^ (h t.2.2.1)) ^^^ (h t.2.2.2)

/-- Equality on pair keys as used by the unordered_map: componentwise
exact equality (std::tuple::operator==). -/
def intTupleEq2 (t u : Int × Int) : Bool :=
  t.1 == u.1 && t.2 == u.2

/-- Equality on triple keys as used by the unordered_map: componentwise
exact equality (std::tuple::operator==). -/
def intTupleEq3 (t u : Int × Int × Int) : Bool :=
  t.1 == u.1 && t.2.1 == u.2.1 && t.2.2 == u.2.2

/-! ## Heuristic selectors

`rowwise_heuristic_dispatch` is the fp8 rowwise decision tree from
ck_extensions.hip; `rowwise_preshuffle_heuristic_dispatch` is the
preshuffle decision tree.  Both are direct transcriptions of the if/else
chains; each branch returns a kernel symbol. -/

/-- The fp8 rowwise heuristic selector from ck_extensions.hip.  The first
guard routes shapes whose N or K violates the catalog vectorization
requirements to a maximally safe kernel; the remaining branches partition
shape space by magnitude. -/
def rowwise_heuristic_dispatch (M N K : Int) : Kernel :=
  if ¬((N % 8 = 0) ∧ (K % 16 = 0)) then
    "fp8fp8bf16_rowwise_64x16x16x256_16x16_1x1_16x4x1_16x4x1_1x4x1x16_4x4x1_1x1_intrawave_v1"
  else if M < 64 ∧ N < 2048 ∧ K < 2048 then
    "fp8fp8bf16_rowwise_64x16x16x128_16x16_1x1_8x8x1_8x8x1_1x16x1x4_4x4x1_1x1_interwave_v1"
  else if M < 64 ∧ K < 2048 then
    "fp8fp8bf16_rowwise_128x16x32x128_16x16_1x1_8x16x1_8x16x1_1x16x1x8_4x4x1_1x1_intrawave_v1"
  else if M < 64 ∧ N < 2048 then
    "fp8fp8bf16_rowwise_128x32x16x128_16x16_1x1_8x16x1_8x16x1_1x16x1x8_2x2x1_1x1_interwave_v1"
  else if M < 64 ∧ N > 2048 ∧ K > 2048 then
    "fp8fp8bf16_rowwise_64x16x16x256_16x16_1x1_16x4x1_16x4x1_1x4x1x16_4x4x1_1x1_intrawave_v1"
  else if M < 64 then
    "fp8fp8bf16_rowwise_64x16x16x128_16x16_1x1_8x8x1_8x8x1_1x16x1x4_4x4x1_1x1_interwave_v1"
  else if ((M < 512 ∧ K < 8192) ∨ (N ≤ 2048 ∧ K ≤ 8192) ∨ (K ≤ 2048 ∧ N ≤ 8192)) ∧ K ≥ 1024 then
    "fp8fp8bf16_rowwise_256x128x128x128_32x32_2x2_8x32x1_8x32x1_1x32x1x8_8x8x1_1x1_intrawave_v5"
  else if K < 1024 then
    "fp8fp8bf16_rowwise_256x128x128x128_32x32_2x2_8x32x1_8x32x1_1x32x1x8_8x8x1_1x1_interwave_v1"
  else if M < 1024 then
    "fp8fp8bf16_rowwise_256x128x128x128_32x32_2x2_8x32x1_8x32x1_1x32x1x8_8x8x1_1x1_intrawave_v3"
  else if M ≥ 1024 ∧ N ≥ 1024 ∧ K ≥ 1024 then
    "fp8fp8bf16_rowwise_256x256x256x128_16x16_8x8_8x32x1_8x32x1_1x32x1x8_8x8x1_1x2_intrawave_v3"
  else
    "fp8fp8bf16_rowwise_256x224x256x128_16x16_7x8_8x32x1_8x32x1_1x32x1x8_8x8x1_1x2_intrawave_v3"

/-- The fp8 rowwise preshuffle heuristic selector
(rowwise_preshuffle_heuristic_dispatch): nested range checks on M, then
N / K, transcribed from the source. -/
def rowwise_preshuffle_heuristic_dispatch (M N K : Int) : Kernel :=
  if M ≤ 16 then
    if K ≤ 1024 then
      "fp8_rowwise_preshuffle_256x16x64x256_16x16_1x1_16x16x1_16x16x1_1x16x1x16_4x4x1_1x1_intrawave_v1"
    else if N ≤ 1024 then
      "fp8_rowwise_preshuffle_128x16x32x512_16x16_1x1_32x4x1_32x4x1_1x16x1x8_4x4x1_1x1_intrawave_v2"
    else
      "fp8_rowwise_preshuffle_128x16x32x512_16x16_1x1_32x4x1_32x4x1_1x16x1x8_4x4x1_1x1_intrawave_v1"
  else if M ≤ 32 then
    if K ≤ 1024 then
      "fp8_rowwise_preshuffle_256x16x64x256_16x16_1x1_16x16x1_16x16x1_1x16x1x16_4x4x1_1x1_intrawave_v1"
    else if N ≤ 1024 then
      "fp8_rowwise_preshuffle_128x16x32x512_16x16_1x1_32x4x1_32x4x1_1x16x1x8_4x4x1_1x1_intrawave_v1"
    else
      "fp8_rowwise_preshuffle_256x16x64x512_16x16_1x1_32x8x1_32x8x1_1x16x1x16_4x4x1_1x1_intrawave_v2"
  else if M ≤ 64 then
    if K ≤ 1024 then
      "fp8_rowwise_preshuffle_256x16x64x256_16x16_1x1_16x16x1_16x16x1_1x16x1x16_4x4x1_1x1_intrawave_v1"
    else if N ≤ 1024 then
      "fp8_rowwise_preshuffle_256x16x64x512_16x16_1x1_32x8x1_32x8x1_1x16x1x16_4x4x1_1x1_intrawave_v2"
    else if N ≤ 5120 then
      "fp8_rowwise_preshuffle_256x16x128x256_16x16_1x2_16x16x1_16x16x1_1x16x1x16_8x8x1_1x2_intrawave_v1"
    else
      "fp8_rowwise_preshuffle_256x32x64x512_16x16_1x2_32x8x1_32x8x1_1x32x1x8_8x8x1_1x2_intrawave_v1"
  else if M ≤ 128 then
    if K ≤ 1024 then
      "fp8_rowwise_preshuffle_256x16x64x256_16x16_1x1_16x16x1_16x16x1_1x16x1x16_4x4x1_1x1_intrawave_v1"
    else if N ≤ 1024 then
      "fp8_rowwise_preshuffle_256x32x64x512_16x16_1x2_32x8x1_32x8x1_1x32x1x8_8x8x1_1x2_intrawave_v1"
    else
      "fp8_rowwise_preshuffle_256x64x64x512_32x32_1x1_32x8x1_32x8x1_1x32x1x8_8x8x1_1x1_intrawave_v1"
  else if M ≤ 512 then
    if K ≤ 1024 then
      "fp8_rowwise_preshuffle_256x16x64x256_16x16_1x1_16x16x1_16x16x1_1x16x1x16_4x4x1_1x1_intrawave_v1"
    else if N ≤ 1024 then
      "fp8_rowwise_preshuffle_256x64x64x512_32x32_1x1_32x8x1_32x8x1_1x32x1x8_8x8x1_1x1_intrawave_v1"
    else
      "fp8_rowwise_preshuffle_256x128x128x256_16x16_8x2_16x16x1_16x16x1_1x32x1x8_8x8x1_2x1_intrawave_v3"
  else if M ≤ 1024 then
    if N ≤ 5120 then
      "fp8_rowwise_preshuffle_256x128x128x256_16x16_8x2_16x16x1_16x16x1_1x32x1x8_8x8x1_2x1_intrawave_v3"
    else
      "fp8_rowwise_preshuffle_256x128x256x128_16x16_8x4_8x32x1_8x32x1_1x32x1x8_8x8x1_2x1_intrawave_v3"
  else if M ≤ 2048 then
    if N ≤ 4096 ∨ K ≤ 1024 then
      "fp8_rowwise_preshuffle_256x128x256x128_16x16_8x4_8x32x1_8x32x1_1x32x1x8_8x8x1_2x1_intrawave_v3"
    else
      "fp8_rowwise_preshuffle_256x160x256x128_16x16_10x4_8x32x1_8x32x1_1x32x1x8_8x8x1_2x1_intrawave_v3"
  else if M ≤ 4096 then
    if N ≤ 4096 ∨ K ≤ 1024 then
      "fp8_rowwise_preshuffle_256x160x256x128_16x16_10x4_8x32x1_8x32x1_1x32x1x8_8x8x1_2x1_intrawave_v3"
    else
      "fp8_rowwise_preshuffle_256x224x256x128_16x16_14x4_8x32x1_8x32x1_1x32x1x8_8x8x1_2x1_intrawave_v3"
  else
    "fp8_rowwise_preshuffle_256x224x256x128_16x16_14x4_8x32x1_8x32x1_1x32x1x8_8x8x1_2x1_intrawave_v3"

/-- Modelled from the spec: the preshuffle kernel catalog.  The manifest
header fp8_rowwise_preshuffle_kernel_manifest.h is not under src/; per the
spec the catalog is the registry of compiled kernel variants the dispatcher
selects among, so we take the set of preshuffle kernel symbols the
dispatcher references (each of which the manifest declares). -/
def preshuffle_kernel_catalog : List Kernel := [
  "fp8_rowwise_preshuffle_256x16x64x256_16x16_1x1_16x16x1_16x16x1_1x16x1x16_4x4x1_1x1_intrawave_v1",
  "fp8_rowwise_preshuffle_128x16x32x512_16x16_1x1_32x4x1_32x4x1_1x16x1x8_4x4x1_1x1_intrawave_v2",
  "fp8_rowwise_preshuffle_128x16x32x512_16x16_1x1_32x4x1_32x4x1_1x16x1x8_4x4x1_1x1_intrawave_v1",
  "fp8_rowwise_preshuffle_256x16x64x512_16x16_1x1_32x8x1_32x8x1_1x16x1x16_4x4x1_1x1_intrawave_v2",
  "fp8_rowwise_preshuffle_256x16x128x256_16x16_1x2_16x16x1_16x16x1_1x16x1x16_8x8x1_1x2_intrawave_v1",
  "fp8_rowwise_preshuffle_256x32x64x512_16x16_1x2_32x8x1_32x8x1_1x32x1x8_8x8x1_1x2_intrawave_v1",
  "fp8_rowwise_preshuffle_256x64x64x512_32x32_1x1_32x8x1_32x8x1_1x32x1x8_8x8x1_1x1_intrawave_v1",
  "fp8_rowwise_preshuffle_256x128x128x256_16x16_8x2_16x16x1_16x16x1_1x32x1x8_8x8x1_2x1_intrawave_v3",
  "fp8_rowwise_preshuffle_256x128x256x128_16x16_8x4_8x32x1_8x32x1_1x32x1x8_8x8x1_2x1_intrawave_v3",
  "fp8_rowwise_preshuffle_256x160x256x128_16x16_10x4_8x32x1_8x32x1_1x32x1x8_8x8x1_2x1_intrawave_v3",
  "fp8_rowwise_preshuffle_256x224x256x128_16x16_14x4_8x32x1_8x32x1_1x32x1x8_8x8x1_2x1_intrawave_v3"
]

/-- The kernel catalog: every kernel symbol declared in
fp8fp8bf16_rowwise_kernel_manifest.h. -/
def rowwise_kernel_catalog : List Kernel := [
  "fp8fp8bf16_rowwise_64x16x16x128_16x16_1x1_8x8x1_8x8x1_1x16x1x4_4x4x1_1x1_interwave_v2",
  "fp8fp8bf16_rowwise_64x16x16x128_16x16_1x1_8x8x1_8x8x1_1x16x1x4_4x4x1_1x1_interwave_v1",
  "fp8fp8bf16_rowwise_64x16x16x64_16x16_1x1_4x16x1_4x16x1_1x16x1x4_4x4x1_1x1_interwave_v2",
  "fp8fp8bf16_rowwise_64x16x16x512_16x16_1x1_8x8x1_8x8x1_1x16x1x4_4x4x1_1x1_interwave_v2",
  "fp8fp8bf16_rowwise_64x16x16x512_16x16_1x1_32x2x1_32x2x1_1x16x1x4_4x4x1_1x1_interwave_v2",
  "fp8fp8bf16_rowwise_128x16x32x128_16x16_1x1_8x16x1_8x16x1_1x16x1x8_4x4x1_1x1_intrawave_v2",
  "fp8fp8bf16_rowwise_128x16x32x128_16x16_1x1_8x16x1_8x16x1_1x16x1x8_4x4x1_1x1_intrawave_v1",
  "fp8fp8bf16_rowwise_64x16x16x256_16x16_1x1_16x4x1_16x4x1_1x4x1x16_4x4x1_1x1_intrawave_v1",
  "fp8fp8bf16_rowwise_128x128x16x128_16x16_4x1_8x16x1_8x16x1_1x16x1x8_8x8x1_1x1_interwave_v2",
  "fp8fp8bf16_rowwise_128x16x32x128_16x16_1x1_8x16x1_8x16x1_1x16x1x8_4x4x1_1x1_interwave_v2",
  "fp8fp8bf16_rowwise_128x16x32x512_16x16_1x1_8x16x1_8x16x1_1x16x1x8_4x4x1_1x1_interwave_v2",
  "fp8fp8bf16_rowwise_128x32x16x128_16x16_1x1_8x16x1_8x16x1_1x16x1x8_2x2x1_1x1_interwave_v2",
  "fp8fp8bf16_rowwise_128x32x16x128_16x16_1x1_8x16x1_8x16x1_1x16x1x8_2x2x1_1x1_interwave_v1",
  "fp8fp8bf16_rowwise_128x32x16x128_16x16_1x1_8x16x1_8x16x1_1x16x1x8_2x2x1_1x1_interwave_v2_16",
  "fp8fp8bf16_rowwise_128x32x64x128_32x32_1x1_8x16x1_8x16x1_1x16x1x8_8x8x1_1x1_intrawave_v2",
  "fp8fp8bf16_rowwise_128x32x64x128_32x32_1x1_8x16x1_8x16x1_1x16x1x8_8x8x1_1x1_interwave_v2",
  "fp8fp8bf16_rowwise_256x128x128x128_32x32_2x2_8x32x1_8x32x1_1x32x1x8_8x8x1_1x1_interwave_v1",
  "fp8fp8bf16_rowwise_256x128x128x64_32x32_2x2_4x64x1_4x64x1_1x32x1x8_8x8x1_1x1_intrawave_v4",
  "fp8fp8bf16_rowwise_256x256x256x64_32x32_4x4_4x64x1_4x64x1_1x32x1x8_8x8x1_1x1_intrawave_v4",
  "fp8fp8bf16_rowwise_256x128x128x128_32x32_2x2_8x32x1_8x32x1_1x32x1x8_8x8x1_1x1_intrawave_v3",
  "fp8fp8bf16_rowwise_256x128x128x128_32x32_2x2_8x32x1_8x32x1_1x32x1x8_8x8x1_1x1_intrawave_v5",
  "fp8fp8bf16_rowwise_256x224x256x128_16x16_7x8_8x32x1_8x32x1_1x32x1x8_8x8x1_1x2_intrawave_v3",
  "fp8fp8bf16_rowwise_256x256x224x128_16x16_8x7_8x32x1_8x32x1_1x64x1x4_8x8x1_2x1_intrawave_v3",
  "fp8fp8bf16_rowwise_256x64x64x128_32x32_1x1_8x32x1_8x32x1_1x32x1x8_8x8x1_1x1_intrawave_v3",
  "fp8fp8bf16_rowwise_256x128x64x128_32x32_2x1_8x32x1_8x32x1_1x32x1x8_8x8x1_1x1_intrawave_v3",
  "fp8fp8bf16_rowwise_128x64x32x128_32x32_1x1_8x16x1_8x16x1_1x16x1x8_4x4x1_1x1_intrawave_v2",
  "fp8fp8bf16_rowwise_128x32x128x128_32x32_1x2_8x16x1_8x16x1_1x16x1x8_8x8x1_1x1_interwave_v2",
  "fp8fp8bf16_rowwise_256x256x256x128_16x16_8x8_8x32x1_8x32x1_1x32x1x8_8x8x1_1x2_intrawave_v3",
  "fp8fp8bf16_rowwise_256x256x256x64_16x16_8x8_4x64x1_4x64x1_1x32x1x8_8x8x1_1x2_intrawave_v3",
  "fp8fp8bf16_rowwise_128x128x32x128_32x32_2x1_8x16x1_8x16x1_1x16x1x8_4x4x1_1x1_intrawave_v2",
  "fp8fp8bf16_rowwise_256x256x192x128_32x32_4x3_8x32x1_8x32x1_1x32x1x8_8x8x1_1x1_intrawave_v3",
  "fp8fp8bf16_rowwise_256x128x160x128_32x32_1x5_8x32x1_8x32x1_1x64x1x4_8x8x1_1x1_intrawave_v3",
  "fp8fp8bf16_rowwise_256x128x192x128_32x32_2x3_8x32x1_8x32x1_1x32x1x8_8x8x1_1x1_intrawave_v3",
  "fp8fp8bf16_rowwise_256x192x128x128_16x16_6x4_8x32x1_8x32x1_1x32x1x8_8x8x1_2x2_intrawave_v3",
  "fp8fp8bf16_rowwise_256x192x256x128_16x16_6x8_8x32x1_8x32x1_1x32x1x8_8x8x1_2x2_intrawave_v3",
  "fp8fp8bf16_rowwise_256x256x96x128_32x32_2x3_8x32x1_8x32x1_1x64x1x4_8x8x1_2x1_intrawave_v3",
  "fp8fp8bf16_rowwise_256x256x128x128_32x32_4x2_8x32x1_8x32x1_1x32x1x8_8x8x1_1x1_intrawave_v3",
  "fp8fp8bf16_rowwise_128x16x32x128_16x16_1x1_8x16x1_8x16x1_1x16x1x8_4x4x1_1x1_interwave_v2_8",
  "fp8fp8bf16_rowwise_128x16x32x512_16x16_1x1_32x4x1_32x4x1_1x16x1x8_4x4x1_1x1_intrawave_v2",
  "fp8fp8bf16_rowwise_256x64x128x256_32x32_1x2_16x16x1_16x16x1_1x32x1x8_8x8x1_1x1_intrawave_v3",
  "fp8fp8bf16_rowwise_256x128x96x256_32x32_1x3_16x16x1_16x16x1_1x64x1x4_8x8x1_1x1_intrawave_v3",
  "fp8fp8bf16_rowwise_256x128x128x256_32x32_2x2_16x16x1_16x16x1_1x32x1x8_8x8x1_1x1_intrawave_v3",
  "fp8fp8bf16_rowwise_256x64x192x256_32x32_1x3_16x16x1_16x16x1_1x32x1x8_8x8x1_1x1_intrawave_v3",
  "fp8fp8bf16_rowwise_256x256x96x128_16x16_8x3_8x32x1_8x32x1_1x64x1x4_8x8x1_2x1_intrawave_v3",
  "fp8fp8bf16_rowwise_256x256x128x128_16x16_8x4_8x32x1_8x32x1_1x32x1x8_8x8x1_1x2_intrawave_v3",
  "fp8fp8bf16_rowwise_256x256x160x128_16x16_8x5_8x32x1_8x32x1_1x64x1x4_8x8x1_2x1_intrawave_v3",
  "fp8fp8bf16_rowwise_256x128x256x128_32x32_2x4_8x32x1_8x32x1_1x32x1x8_8x8x1_1x1_intrawave_v3",
  "fp8fp8bf16_rowwise_256x256x192x128_16x16_8x6_8x32x1_8x32x1_1x32x1x8_8x8x1_1x2_intrawave_v3",
  "fp8fp8bf16_rowwise_128x16x32x512_16x16_1x1_32x4x1_32x4x1_1x16x1x8_4x4x1_1x1_intrawave_v2_2",
  "fp8fp8bf16_rowwise_256x32x64x512_16x16_1x2_32x8x1_32x8x1_1x32x1x8_8x8x1_1x2_intrawave_v3",
  "fp8fp8bf16_rowwise_64x16x16x256_16x16_1x1_16x4x1_16x4x1_1x16x1x4_4x4x1_1x1_intrawave_v1",
  "fp8fp8bf16_rowwise_256x32x128x256_32x32_1x1_16x16x1_16x16x1_1x32x1x8_8x8x1_1x1_intrawave_v3",
  "fp8fp8bf16_rowwise_128x16x32x256_16x16_1x1_16x8x1_16x8x1_1x16x1x8_4x4x1_1x1_intrawave_v1",
  "fp8fp8bf16_rowwise_256x64x64x512_32x32_1x1_32x8x1_32x8x1_1x32x1x8_8x8x1_1x1_intrawave_v3",
  "fp8fp8bf16_rowwise_128x32x16x256_16x16_1x1_16x8x1_16x8x1_1x32x1x4_4x4x1_1x1_interwave_v1",
  "fp8fp8bf16_rowwise_256x64x96x256_16x16_2x3_16x16x1_16x16x1_1x64x1x4_8x8x1_2x1_intrawave_v3",
  "fp8fp8bf16_rowwise_128x16x32x512_16x16_1x1_32x4x1_32x4x1_1x16x1x8_4x4x1_1x1_interwave_v2",
  "fp8fp8bf16_rowwise_128x32x16x512_16x16_1x1_32x4x1_32x4x1_1x32x1x4_4x4x1_1x1_interwave_v2",
  "fp8fp8bf16_rowwise_128x32x16x512_16x16_1x1_32x4x1_32x4x1_1x32x1x4_4x4x1_1x1_intrawave_v2",
  "fp8fp8bf16_rowwise_256x16x64x512_16x16_1x1_32x8x1_32x8x1_1x16x1x16_4x4x1_1x1_intrawave_v3",
  "fp8fp8bf16_rowwise_128x16x32x512_16x16_1x1_32x4x1_32x4x1_1x16x1x8_4x4x1_1x1_interwave_v2_2",
  "fp8fp8bf16_rowwise_256x64x256x128_32x32_1x4_8x32x1_8x32x1_1x32x1x8_8x8x1_1x1_intrawave_v3",
  "fp8fp8bf16_rowwise_256x64x192x128_32x32_1x3_8x32x1_8x32x1_1x32x1x8_8x8x1_1x1_intrawave_v3",
  "fp8fp8bf16_rowwise_256x16x64x128_16x16_1x1_16x16x1_8x32x1_1x16x1x16_4x4x1_1x1_intrawave_v2_8",
  "fp8fp8bf16_rowwise_128x16x32x128_16x16_1x1_8x16x1_8x16x1_1x16x1x8_4x4x1_1x1_interwave_v2_4",
  "fp8fp8bf16_rowwise_256x64x128x128_32x32_1x2_8x32x1_8x32x1_1x32x1x8_8x8x1_1x1_intrawave_v3",
  "fp8fp8bf16_rowwise_128x64x32x128_32x32_1x1_8x16x1_8x16x1_1x16x1x8_4x4x1_1x1_interwave_v2",
  "fp8fp8bf16_rowwise_128x16x32x128_16x16_1x1_8x16x1_8x16x1_1x16x1x8_4x4x1_1x1_intrawave_v2_8",
  "fp8fp8bf16_rowwise_256x64x16x512_16x16_1x1_32x8x1_32x8x1_1x64x1x4_4x4x1_1x1_intrawave_v2",
  "fp8fp8bf16_rowwise_256x192x224x128_16x16_6x7_8x32x1_8x32x1_1x64x1x4_8x8x1_2x1_intrawave_v3",
  "fp8fp8bf16_rowwise_256x160x256x128_16x16_5x8_8x32x1_8x32x1_1x32x1x8_8x8x1_1x2_intrawave_v3",
  "fp8fp8bf16_rowwise_256x160x96x128_16x16_5x3_8x32x1_8x32x1_1x32x1x8_4x4x1_1x1_intrawave_v3",
  "fp8fp8bf16_rowwise_256x192x192x128_16x16_6x6_8x32x1_8x32x1_1x32x1x8_8x8x1_1x2_intrawave_v3",
  "fp8fp8bf16_rowwise_256x96x128x128_16x16_3x4_8x32x1_8x32x1_1x32x1x8_8x8x1_1x2_intrawave_v3",
  "fp8fp8bf16_rowwise_256x128x96x128_16x16_4x3_8x32x1_8x32x1_1x64x1x4_8x8x1_2x1_intrawave_v3",
  "fp8fp8bf16_rowwise_256x192x256x128_16x16_6x8_8x32x1_8x32x1_1x32x1x8_8x8x1_1x2_intrawave_v3",
  "fp8fp8bf16_rowwise_256x128x128x128_16x16_4x4_8x32x1_8x32x1_1x32x1x8_8x8x1_1x2_intrawave_v3",
  "fp8fp8bf16_rowwise_256x224x160x128_16x16_7x5_8x32x1_8x32x1_1x32x1x8_4x4x1_1x1_intrawave_v3",
  "fp8fp8bf16_rowwise_256x128x64x256_32x32_2x1_16x16x1_16x16x1_1x32x1x8_8x8x1_1x1_intrawave_v3",
  "fp8fp8bf16_rowwise_256x80x128x256_16x16_5x2_16x16x1_16x16x1_1x16x1x16_8x8x1_1x2_intrawave_v3",
  "fp8fp8bf16_rowwise_256x16x64x512_16x16_1x1_32x8x1_32x8x1_1x16x1x16_4x4x1_1x1_intrawave_v2",
  "fp8fp8bf16_rowwise_256x160x128x128_16x16_5x4_8x32x1_8x32x1_1x32x1x8_8x8x1_1x2_intrawave_v3",
  "fp8fp8bf16_rowwise_256x224x192x128_16x16_7x6_8x32x1_8x32x1_1x32x1x8_8x8x1_1x2_intrawave_v3",
  "fp8fp8bf16_rowwise_256x128x160x128_16x16_4x5_8x32x1_8x32x1_1x64x1x4_8x8x1_2x1_intrawave_v3"
]

/-- The exact-key (M, N, K) lookup table `rowwise_lookup_dispatch` from
ck_extensions.hip, mapping high-priority shapes directly to kernels. -/
def rowwise_lookup_dispatch : List ((Int × Int × Int) × Kernel) := [
  ((16, 1280, 8192), "fp8fp8bf16_rowwise_128x16x32x128_16x16_1x1_8x16x1_8x16x1_1x16x1x8_4x4x1_1x1_interwave_v2"),
  ((32, 1280, 8192), "fp8fp8bf16_rowwise_128x32x16x128_16x16_1x1_8x16x1_8x16x1_1x16x1x8_2x2x1_1x1_interwave_v2"),
  ((64, 1280, 8192), "fp8fp8bf16_rowwise_128x32x16x128_16x16_1x1_8x16x1_8x16x1_1x16x1x8_2x2x1_1x1_interwave_v2"),
  ((128, 1280, 8192), "fp8fp8bf16_rowwise_128x16x32x128_16x16_1x1_8x16x1_8x16x1_1x16x1x8_4x4x1_1x1_interwave_v2"),
  ((16, 8192, 1024), "fp8fp8bf16_rowwise_128x16x32x128_16x16_1x1_8x16x1_8x16x1_1x16x1x8_4x4x1_1x1_intrawave_v2"),
  ((32, 8192, 1024), "fp8fp8bf16_rowwise_128x32x16x128_16x16_1x1_8x16x1_8x16x1_1x16x1x8_2x2x1_1x1_interwave_v2"),
  ((64, 8192, 1024), "fp8fp8bf16_rowwise_128x32x16x128_16x16_1x1_8x16x1_8x16x1_1x16x1x8_2x2x1_1x1_interwave_v2"),
  ((128, 8192, 1024), "fp8fp8bf16_rowwise_256x64x64x128_32x32_1x1_8x32x1_8x32x1_1x32x1x8_8x8x1_1x1_intrawave_v3"),
  ((16, 13312, 6656), "fp8fp8bf16_rowwise_64x16x16x256_16x16_1x1_16x4x1_16x4x1_1x4x1x16_4x4x1_1x1_intrawave_v1"),
  ((32, 13312, 6656), "fp8fp8bf16_rowwise_128x32x64x128_32x32_1x1_8x16x1_8x16x1_1x16x1x8_8x8x1_1x1_intrawave_v2"),
  ((64, 13312, 6656), "fp8fp8bf16_rowwise_256x64x64x128_32x32_1x1_8x32x1_8x32x1_1x32x1x8_8x8x1_1x1_intrawave_v3"),
  ((128, 13312, 6656), "fp8fp8bf16_rowwise_256x128x64x128_32x32_2x1_8x32x1_8x32x1_1x32x1x8_8x8x1_1x1_intrawave_v3"),
  ((16, 13312, 16384), "fp8fp8bf16_rowwise_64x16x16x512_16x16_1x1_32x2x1_32x2x1_1x16x1x4_4x4x1_1x1_interwave_v2"),
  ((32, 13312, 16384), "fp8fp8bf16_rowwise_128x32x64x128_32x32_1x1_8x16x1_8x16x1_1x16x1x8_8x8x1_1x1_interwave_v2"),
  ((64, 13312, 16384), "fp8fp8bf16_rowwise_256x64x64x128_32x32_1x1_8x32x1_8x32x1_1x32x1x8_8x8x1_1x1_intrawave_v3"),
  ((128, 13312, 16384), "fp8fp8bf16_rowwise_256x128x64x128_32x32_2x1_8x32x1_8x32x1_1x32x1x8_8x8x1_1x1_intrawave_v3"),
  ((1024, 13312, 16384), "fp8fp8bf16_rowwise_256x256x224x128_16x16_8x7_8x32x1_8x32x1_1x64x1x4_8x8x1_2x1_intrawave_v3"),
  ((2048, 13312, 16384), "fp8fp8bf16_rowwise_256x224x256x128_16x16_7x8_8x32x1_8x32x1_1x32x1x8_8x8x1_1x2_intrawave_v3"),
  ((4096, 13312, 16384), "fp8fp8bf16_rowwise_256x256x256x128_16x16_8x8_8x32x1_8x32x1_1x32x1x8_8x8x1_1x2_intrawave_v3"),
  ((8192, 13312, 16384), "fp8fp8bf16_rowwise_256x256x256x128_16x16_8x8_8x32x1_8x32x1_1x32x1x8_8x8x1_1x2_intrawave_v3"),
  ((16, 16384, 6656), "fp8fp8bf16_rowwise_64x16x16x256_16x16_1x1_16x4x1_16x4x1_1x4x1x16_4x4x1_1x1_intrawave_v1"),
  ((32, 16384, 6656), "fp8fp8bf16_rowwise_128x32x64x128_32x32_1x1_8x16x1_8x16x1_1x16x1x8_8x8x1_1x1_intrawave_v2"),
  ((64, 16384, 6656), "fp8fp8bf16_rowwise_256x64x64x128_32x32_1x1_8x32x1_8x32x1_1x32x1x8_8x8x1_1x1_intrawave_v3"),
  ((128, 16384, 6656), "fp8fp8bf16_rowwise_256x128x64x128_32x32_2x1_8x32x1_8x32x1_1x32x1x8_8x8x1_1x1_intrawave_v3"),
  ((1024, 16384, 6656), "fp8fp8bf16_rowwise_256x256x224x128_16x16_8x7_8x32x1_8x32x1_1x64x1x4_8x8x1_2x1_intrawave_v3"),
  ((2048, 16384, 6656), "fp8fp8bf16_rowwise_256x256x224x128_16x16_8x7_8x32x1_8x32x1_1x64x1x4_8x8x1_2x1_intrawave_v3"),
  ((4096, 16384, 6656), "fp8fp8bf16_rowwise_256x224x256x128_16x16_7x8_8x32x1_8x32x1_1x32x1x8_8x8x1_1x2_intrawave_v3"),
  ((8192, 16384, 6656), "fp8fp8bf16_rowwise_256x256x256x128_16x16_8x8_8x32x1_8x32x1_1x32x1x8_8x8x1_1x2_intrawave_v3"),
  ((16, 16384, 16384), "fp8fp8bf16_rowwise_64x16x16x512_16x16_1x1_32x2x1_32x2x1_1x16x1x4_4x4x1_1x1_interwave_v2"),
  ((32, 16384, 16384), "fp8fp8bf16_rowwise_128x32x64x128_32x32_1x1_8x16x1_8x16x1_1x16x1x8_8x8x1_1x1_interwave_v2"),
  ((64, 16384, 16384), "fp8fp8bf16_rowwise_256x64x64x128_32x32_1x1_8x32x1_8x32x1_1x32x1x8_8x8x1_1x1_intrawave_v3"),
  ((128, 16384, 16384), "fp8fp8bf16_rowwise_256x128x64x128_32x32_2x1_8x32x1_8x32x1_1x32x1x8_8x8x1_1x1_intrawave_v3"),
  ((1536, 3584, 3584), "fp8fp8bf16_rowwise_256x128x160x128_32x32_1x5_8x32x1_8x32x1_1x64x1x4_8x8x1_1x1_intrawave_v3"),
  ((8192, 9728, 3584), "fp8fp8bf16_rowwise_256x256x256x128_16x16_8x8_8x32x1_8x32x1_1x32x1x8_8x8x1_1x2_intrawave_v3"),
  ((8192, 3584, 9728), "fp8fp8bf16_rowwise_256x256x224x128_16x16_8x7_8x32x1_8x32x1_1x64x1x4_8x8x1_2x1_intrawave_v3"),
  ((8192, 3584, 3584), "fp8fp8bf16_rowwise_256x256x192x128_32x32_4x3_8x32x1_8x32x1_1x32x1x8_8x8x1_1x1_intrawave_v3"),
  ((4096, 3584, 3584), "fp8fp8bf16_rowwise_256x256x224x128_16x16_8x7_8x32x1_8x32x1_1x64x1x4_8x8x1_2x1_intrawave_v3"),
  ((768, 3584, 3584), "fp8fp8bf16_rowwise_256x128x128x128_32x32_2x2_8x32x1_8x32x1_1x32x1x8_8x8x1_1x1_intrawave_v3"),
  ((4096, 9728, 3584), "fp8fp8bf16_rowwise_256x256x256x128_16x16_8x8_8x32x1_8x32x1_1x32x1x8_8x8x1_1x2_intrawave_v3"),
  ((4096, 3584, 9728), "fp8fp8bf16_rowwise_256x224x256x128_16x16_7x8_8x32x1_8x32x1_1x32x1x8_8x8x1_1x2_intrawave_v3"),
  ((7200, 3584, 3584), "fp8fp8bf16_rowwise_256x256x192x128_32x32_4x3_8x32x1_8x32x1_1x32x1x8_8x8x1_1x1_intrawave_v3"),
  ((7200, 9728, 3584), "fp8fp8bf16_rowwise_256x256x256x128_16x16_8x8_8x32x1_8x32x1_1x32x1x8_8x8x1_1x2_intrawave_v3"),
  ((7200, 3584, 9728), "fp8fp8bf16_rowwise_256x256x192x128_32x32_4x3_8x32x1_8x32x1_1x32x1x8_8x8x1_1x1_intrawave_v3"),
  ((3600, 3584, 3584), "fp8fp8bf16_rowwise_256x256x224x128_16x16_8x7_8x32x1_8x32x1_1x64x1x4_8x8x1_2x1_intrawave_v3"),
  ((3600, 9728, 3584), "fp8fp8bf16_rowwise_256x256x256x128_16x16_8x8_8x32x1_8x32x1_1x32x1x8_8x8x1_1x2_intrawave_v3"),
  ((3600, 3584, 9728), "fp8fp8bf16_rowwise_256x256x224x128_16x16_8x7_8x32x1_8x32x1_1x64x1x4_8x8x1_2x1_intrawave_v3"),
  ((1536, 4096, 4096), "fp8fp8bf16_rowwise_256x192x128x128_16x16_6x4_8x32x1_8x32x1_1x32x1x8_8x8x1_2x2_intrawave_v3"),
  ((3600, 4096, 4096), "fp8fp8bf16_rowwise_256x192x256x128_16x16_6x8_8x32x1_8x32x1_1x32x1x8_8x8x1_2x2_intrawave_v3"),
  ((3600, 11008, 4096), "fp8fp8bf16_rowwise_256x192x256x128_16x16_6x8_8x32x1_8x32x1_1x32x1x8_8x8x1_2x2_intrawave_v3"),
  ((3600, 4096, 11008), "fp8fp8bf16_rowwise_256x192x256x128_16x16_6x8_8x32x1_8x32x1_1x32x1x8_8x8x1_2x2_intrawave_v3"),
  ((4096, 4096, 4096), "fp8fp8bf16_rowwise_256x224x256x128_16x16_7x8_8x32x1_8x32x1_1x32x1x8_8x8x1_1x2_intrawave_v3"),
  ((4096, 11008, 4096), "fp8fp8bf16_rowwise_256x224x256x128_16x16_7x8_8x32x1_8x32x1_1x32x1x8_8x8x1_1x2_intrawave_v3"),
  ((4096, 4096, 11008), "fp8fp8bf16_rowwise_256x256x224x128_16x16_8x7_8x32x1_8x32x1_1x64x1x4_8x8x1_2x1_intrawave_v3"),
  ((32768, 128, 8192), "fp8fp8bf16_rowwise_256x128x128x128_32x32_2x2_8x32x1_8x32x1_1x32x1x8_8x8x1_1x1_intrawave_v3"),
  ((32768, 8192, 1024), "fp8fp8bf16_rowwise_256x128x128x128_32x32_2x2_8x32x1_8x32x1_1x32x1x8_8x8x1_1x1_intrawave_v3"),
  ((32768, 8192, 3072), "fp8fp8bf16_rowwise_256x224x256x128_16x16_7x8_8x32x1_8x32x1_1x32x1x8_8x8x1_1x2_intrawave_v3"),
  ((32768, 3072, 8192), "fp8fp8bf16_rowwise_256x224x256x128_16x16_7x8_8x32x1_8x32x1_1x32x1x8_8x8x1_1x2_intrawave_v3"),
  ((32768, 1024, 8192), "fp8fp8bf16_rowwise_256x224x256x128_16x16_7x8_8x32x1_8x32x1_1x32x1x8_8x8x1_1x2_intrawave_v3")
]

/-- Per-(N, K) family table `N_7168_K_8192_dispatch_table` (std::map, keys ascending). -/
def N_7168_K_8192_dispatch_table : List (Int × Kernel) := [
  (8, "fp8fp8bf16_rowwise_128x32x16x512_16x16_1x1_32x4x1_32x4x1_1x32x1x4_4x4x1_1x1_interwave_v2"),
  (32, "fp8fp8bf16_rowwise_128x32x16x512_16x16_1x1_32x4x1_32x4x1_1x32x1x4_4x4x1_1x1_intrawave_v2"),
  (64, "fp8fp8bf16_rowwise_256x32x64x512_16x16_1x2_32x8x1_32x8x1_1x32x1x8_8x8x1_1x2_intrawave_v3"),
  (128, "fp8fp8bf16_rowwise_256x64x64x512_32x32_1x1_32x8x1_32x8x1_1x32x1x8_8x8x1_1x1_intrawave_v3"),
  (320, "fp8fp8bf16_rowwise_256x64x128x256_32x32_1x2_16x16x1_16x16x1_1x32x1x8_8x8x1_1x1_intrawave_v3"),
  (512, "fp8fp8bf16_rowwise_256x128x96x256_32x32_1x3_16x16x1_16x16x1_1x64x1x4_8x8x1_1x1_intrawave_v3"),
  (576, "fp8fp8bf16_rowwise_256x128x128x128_32x32_2x2_8x32x1_8x32x1_1x32x1x8_8x8x1_1x1_intrawave_v3"),
  (640, "fp8fp8bf16_rowwise_256x128x128x256_32x32_2x2_16x16x1_16x16x1_1x32x1x8_8x8x1_1x1_intrawave_v3"),
  (768, "fp8fp8bf16_rowwise_256x128x160x128_32x32_1x5_8x32x1_8x32x1_1x64x1x4_8x8x1_1x1_intrawave_v3"),
  (1024, "fp8fp8bf16_rowwise_256x256x96x128_16x16_8x3_8x32x1_8x32x1_1x64x1x4_8x8x1_2x1_intrawave_v3"),
  (1280, "fp8fp8bf16_rowwise_256x256x128x128_16x16_8x4_8x32x1_8x32x1_1x32x1x8_8x8x1_1x2_intrawave_v3"),
  (1536, "fp8fp8bf16_rowwise_256x256x160x128_16x16_8x5_8x32x1_8x32x1_1x64x1x4_8x8x1_2x1_intrawave_v3"),
  (2048, "fp8fp8bf16_rowwise_256x256x192x128_16x16_8x6_8x32x1_8x32x1_1x32x1x8_8x8x1_1x2_intrawave_v3"),
  (2304, "fp8fp8bf16_rowwise_256x256x224x128_16x16_8x7_8x32x1_8x32x1_1x64x1x4_8x8x1_2x1_intrawave_v3"),
  (2560, "fp8fp8bf16_rowwise_256x256x256x128_16x16_8x8_8x32x1_8x32x1_1x32x1x8_8x8x1_1x2_intrawave_v3"),
  (3328, "fp8fp8bf16_rowwise_256x256x160x128_16x16_8x5_8x32x1_8x32x1_1x64x1x4_8x8x1_2x1_intrawave_v3"),
  (4096, "fp8fp8bf16_rowwise_256x256x192x128_16x16_8x6_8x32x1_8x32x1_1x32x1x8_8x8x1_1x2_intrawave_v3"),
  (4672, "fp8fp8bf16_rowwise_256x224x256x128_16x16_7x8_8x32x1_8x32x1_1x32x1x8_8x8x1_1x2_intrawave_v3"),
  (4864, "fp8fp8bf16_rowwise_256x256x224x128_16x16_8x7_8x32x1_8x32x1_1x64x1x4_8x8x1_2x1_intrawave_v3"),
  (5376, "fp8fp8bf16_rowwise_256x256x256x128_16x16_8x8_8x32x1_8x32x1_1x32x1x8_8x8x1_1x2_intrawave_v3"),
  (6144, "fp8fp8bf16_rowwise_256x256x192x128_16x16_8x6_8x32x1_8x32x1_1x32x1x8_8x8x1_1x2_intrawave_v3"),
  (7168, "fp8fp8bf16_rowwise_256x256x224x128_16x16_8x7_8x32x1_8x32x1_1x64x1x4_8x8x1_2x1_intrawave_v3"),
  (8192, "fp8fp8bf16_rowwise_256x256x256x128_16x16_8x8_8x32x1_8x32x1_1x32x1x8_8x8x1_1x2_intrawave_v3")
]

/-- Per-(N, K) family table `N_8192_K_3584_dispatch_table` (std::map, keys ascending). -/
def N_8192_K_3584_dispatch_table : List (Int × Kernel) := [
  (8, "fp8fp8bf16_rowwise_128x16x32x512_16x16_1x1_32x4x1_32x4x1_1x16x1x8_4x4x1_1x1_interwave_v2"),
  (16, "fp8fp8bf16_rowwise_128x16x32x512_16x16_1x1_32x4x1_32x4x1_1x16x1x8_4x4x1_1x1_intrawave_v2"),
  (32, "fp8fp8bf16_rowwise_256x16x64x512_16x16_1x1_32x8x1_32x8x1_1x16x1x16_4x4x1_1x1_intrawave_v3"),
  (64, "fp8fp8bf16_rowwise_256x32x64x512_16x16_1x2_32x8x1_32x8x1_1x32x1x8_8x8x1_1x2_intrawave_v3"),
  (128, "fp8fp8bf16_rowwise_256x64x64x512_32x32_1x1_32x8x1_32x8x1_1x32x1x8_8x8x1_1x1_intrawave_v3"),
  (192, "fp8fp8bf16_rowwise_256x64x96x256_16x16_2x3_16x16x1_16x16x1_1x64x1x4_8x8x1_2x1_intrawave_v3"),
  (256, "fp8fp8bf16_rowwise_256x64x128x256_32x32_1x2_16x16x1_16x16x1_1x32x1x8_8x8x1_1x1_intrawave_v3"),
  (384, "fp8fp8bf16_rowwise_256x128x96x256_32x32_1x3_16x16x1_16x16x1_1x64x1x4_8x8x1_1x1_intrawave_v3"),
  (512, "fp8fp8bf16_rowwise_256x128x128x256_32x32_2x2_16x16x1_16x16x1_1x32x1x8_8x8x1_1x1_intrawave_v3"),
  (640, "fp8fp8bf16_rowwise_256x128x160x128_32x32_1x5_8x32x1_8x32x1_1x64x1x4_8x8x1_1x1_intrawave_v3"),
  (896, "fp8fp8bf16_rowwise_256x128x192x128_32x32_2x3_8x32x1_8x32x1_1x32x1x8_8x8x1_1x1_intrawave_v3"),
  (1024, "fp8fp8bf16_rowwise_256x256x128x128_16x16_8x4_8x32x1_8x32x1_1x32x1x8_8x8x1_1x2_intrawave_v3"),
  (1280, "fp8fp8bf16_rowwise_256x256x160x128_16x16_8x5_8x32x1_8x32x1_1x64x1x4_8x8x1_2x1_intrawave_v3"),
  (1792, "fp8fp8bf16_rowwise_256x256x192x128_16x16_8x6_8x32x1_8x32x1_1x32x1x8_8x8x1_1x2_intrawave_v3"),
  (2048, "fp8fp8bf16_rowwise_256x256x224x128_16x16_8x7_8x32x1_8x32x1_1x64x1x4_8x8x1_2x1_intrawave_v3"),
  (2304, "fp8fp8bf16_rowwise_256x256x256x128_16x16_8x8_8x32x1_8x32x1_1x32x1x8_8x8x1_1x2_intrawave_v3"),
  (2368, "fp8fp8bf16_rowwise_256x128x256x128_32x32_2x4_8x32x1_8x32x1_1x32x1x8_8x8x1_1x1_intrawave_v3"),
  (2816, "fp8fp8bf16_rowwise_256x256x160x128_16x16_8x5_8x32x1_8x32x1_1x64x1x4_8x8x1_2x1_intrawave_v3"),
  (3584, "fp8fp8bf16_rowwise_256x256x192x128_16x16_8x6_8x32x1_8x32x1_1x32x1x8_8x8x1_1x2_intrawave_v3"),
  (4256, "fp8fp8bf16_rowwise_256x224x256x128_16x16_7x8_8x32x1_8x32x1_1x32x1x8_8x8x1_1x2_intrawave_v3"),
  (4864, "fp8fp8bf16_rowwise_256x256x256x128_16x16_8x8_8x32x1_8x32x1_1x32x1x8_8x8x1_1x2_intrawave_v3"),
  (5376, "fp8fp8bf16_rowwise_256x256x192x128_16x16_8x6_8x32x1_8x32x1_1x32x1x8_8x8x1_1x2_intrawave_v3"),
  (6272, "fp8fp8bf16_rowwise_256x224x256x128_16x16_7x8_8x32x1_8x32x1_1x32x1x8_8x8x1_1x2_intrawave_v3"),
  (7168, "fp8fp8bf16_rowwise_256x256x256x128_16x16_8x8_8x32x1_8x32x1_1x32x1x8_8x8x1_1x2_intrawave_v3"),
  (7424, "fp8fp8bf16_rowwise_256x256x160x128_16x16_8x5_8x32x1_8x32x1_1x64x1x4_8x8x1_2x1_intrawave_v3"),
  (8192, "fp8fp8bf16_rowwise_256x224x256x128_16x16_7x8_8x32x1_8x32x1_1x32x1x8_8x8x1_1x2_intrawave_v3")
]

/-- Per-(N, K) family table `N_1024_K_5120_dispatch_table` (std::map, keys ascending). -/
def N_1024_K_5120_dispatch_table : List (Int × Kernel) := [
  (32, "fp8fp8bf16_rowwise_128x16x32x128_16x16_1x1_8x16x1_8x16x1_1x16x1x8_4x4x1_1x1_interwave_v2_8"),
  (64, "fp8fp8bf16_rowwise_128x16x32x512_16x16_1x1_32x4x1_32x4x1_1x16x1x8_4x4x1_1x1_intrawave_v2_2"),
  (128, "fp8fp8bf16_rowwise_128x16x32x512_16x16_1x1_32x4x1_32x4x1_1x16x1x8_4x4x1_1x1_intrawave_v2"),
  (192, "fp8fp8bf16_rowwise_256x16x64x512_16x16_1x1_32x8x1_32x8x1_1x16x1x16_4x4x1_1x1_intrawave_v3"),
  (608, "fp8fp8bf16_rowwise_256x32x64x512_16x16_1x2_32x8x1_32x8x1_1x32x1x8_8x8x1_1x2_intrawave_v3"),
  (1216, "fp8fp8bf16_rowwise_256x64x64x512_32x32_1x1_32x8x1_32x8x1_1x32x1x8_8x8x1_1x1_intrawave_v3"),
  (2432, "fp8fp8bf16_rowwise_256x64x128x256_32x32_1x2_16x16x1_16x16x1_1x32x1x8_8x8x1_1x1_intrawave_v3"),
  (3456, "fp8fp8bf16_rowwise_256x128x96x256_32x32_1x3_16x16x1_16x16x1_1x64x1x4_8x8x1_1x1_intrawave_v3"),
  (4864, "fp8fp8bf16_rowwise_256x128x128x256_32x32_2x2_16x16x1_16x16x1_1x32x1x8_8x8x1_1x1_intrawave_v3"),
  (5472, "fp8fp8bf16_rowwise_256x128x160x128_32x32_1x5_8x32x1_8x32x1_1x64x1x4_8x8x1_1x1_intrawave_v3"),
  (6368, "fp8fp8bf16_rowwise_256x128x192x128_32x32_2x3_8x32x1_8x32x1_1x32x1x8_8x8x1_1x1_intrawave_v3"),
  (6912, "fp8fp8bf16_rowwise_256x256x96x128_16x16_8x3_8x32x1_8x32x1_1x64x1x4_8x8x1_2x1_intrawave_v3"),
  (8192, "fp8fp8bf16_rowwise_256x256x128x128_16x16_8x4_8x32x1_8x32x1_1x32x1x8_8x8x1_1x2_intrawave_v3")
]

/-- Per-(N, K) family table `N_5120_K_1024_dispatch_table` (std::map, keys ascending). -/
def N_5120_K_1024_dispatch_table : List (Int × Kernel) := [
  (16, "fp8fp8bf16_rowwise_128x16x32x128_16x16_1x1_8x16x1_8x16x1_1x16x1x8_4x4x1_1x1_interwave_v2"),
  (32, "fp8fp8bf16_rowwise_64x16x16x256_16x16_1x1_16x4x1_16x4x1_1x16x1x4_4x4x1_1x1_intrawave_v1"),
  (64, "fp8fp8bf16_rowwise_128x32x16x256_16x16_1x1_16x8x1_16x8x1_1x32x1x4_4x4x1_1x1_interwave_v1"),
  (96, "fp8fp8bf16_rowwise_128x16x32x256_16x16_1x1_16x8x1_16x8x1_1x16x1x8_4x4x1_1x1_intrawave_v1"),
  (192, "fp8fp8bf16_rowwise_256x32x128x256_32x32_1x1_16x16x1_16x16x1_1x32x1x8_8x8x1_1x1_intrawave_v3"),
  (256, "fp8fp8bf16_rowwise_256x64x64x128_32x32_1x1_8x32x1_8x32x1_1x32x1x8_8x8x1_1x1_intrawave_v3"),
  (320, "fp8fp8bf16_rowwise_256x64x96x256_16x16_2x3_16x16x1_16x16x1_1x64x1x4_8x8x1_2x1_intrawave_v3"),
  (448, "fp8fp8bf16_rowwise_256x64x128x256_32x32_1x2_16x16x1_16x16x1_1x32x1x8_8x8x1_1x1_intrawave_v3"),
  (640, "fp8fp8bf16_rowwise_256x128x96x256_32x32_1x3_16x16x1_16x16x1_1x64x1x4_8x8x1_1x1_intrawave_v3"),
  (896, "fp8fp8bf16_rowwise_256x128x128x256_32x32_2x2_16x16x1_16x16x1_1x32x1x8_8x8x1_1x1_intrawave_v3"),
  (1152, "fp8fp8bf16_rowwise_256x128x160x128_32x32_1x5_8x32x1_8x32x1_1x64x1x4_8x8x1_1x1_intrawave_v3"),
  (1408, "fp8fp8bf16_rowwise_256x128x192x128_32x32_2x3_8x32x1_8x32x1_1x32x1x8_8x8x1_1x1_intrawave_v3"),
  (1920, "fp8fp8bf16_rowwise_256x128x128x128_32x32_2x2_8x32x1_8x32x1_1x32x1x8_8x8x1_1x1_intrawave_v3"),
  (2304, "fp8fp8bf16_rowwise_256x256x160x128_16x16_8x5_8x32x1_8x32x1_1x64x1x4_8x8x1_2x1_intrawave_v3"),
  (2816, "fp8fp8bf16_rowwise_256x256x192x128_16x16_8x6_8x32x1_8x32x1_1x32x1x8_8x8x1_1x2_intrawave_v3"),
  (3360, "fp8fp8bf16_rowwise_256x224x256x128_16x16_7x8_8x32x1_8x32x1_1x32x1x8_8x8x1_1x2_intrawave_v3"),
  (3840, "fp8fp8bf16_rowwise_256x256x256x128_16x16_8x8_8x32x1_8x32x1_1x32x1x8_8x8x1_1x2_intrawave_v3"),
  (4864, "fp8fp8bf16_rowwise_256x256x160x128_16x16_8x5_8x32x1_8x32x1_1x64x1x4_8x8x1_2x1_intrawave_v3"),
  (5632, "fp8fp8bf16_rowwise_256x256x192x128_16x16_8x6_8x32x1_8x32x1_1x32x1x8_8x8x1_1x2_intrawave_v3"),
  (6720, "fp8fp8bf16_rowwise_256x256x224x128_16x16_8x7_8x32x1_8x32x1_1x64x1x4_8x8x1_2x1_intrawave_v3"),
  (7680, "fp8fp8bf16_rowwise_256x256x256x128_16x16_8x8_8x32x1_8x32x1_1x32x1x8_8x8x1_1x2_intrawave_v3"),
  (8192, "fp8fp8bf16_rowwise_256x256x192x128_16x16_8x6_8x32x1_8x32x1_1x32x1x8_8x8x1_1x2_intrawave_v3")
]

/-- Per-(N, K) family table `N_2048_K_5120_dispatch_table` (std::map, keys ascending). -/
def N_2048_K_5120_dispatch_table : List (Int × Kernel) := [
  (4, "fp8fp8bf16_rowwise_256x16x64x128_16x16_1x1_16x16x1_8x32x1_1x16x1x16_4x4x1_1x1_intrawave_v2_8"),
  (8, "fp8fp8bf16_rowwise_128x16x32x128_16x16_1x1_8x16x1_8x16x1_1x16x1x8_4x4x1_1x1_interwave_v2_4"),
  (64, "fp8fp8bf16_rowwise_128x32x16x512_16x16_1x1_32x4x1_32x4x1_1x32x1x4_4x4x1_1x1_intrawave_v2"),
  (288, "fp8fp8bf16_rowwise_256x32x64x512_16x16_1x2_32x8x1_32x8x1_1x32x1x8_8x8x1_1x2_intrawave_v3"),
  (576, "fp8fp8bf16_rowwise_256x64x64x512_32x32_1x1_32x8x1_32x8x1_1x32x1x8_8x8x1_1x1_intrawave_v3"),
  (1216, "fp8fp8bf16_rowwise_256x64x128x256_32x32_1x2_16x16x1_16x16x1_1x32x1x8_8x8x1_1x1_intrawave_v3"),
  (1664, "fp8fp8bf16_rowwise_256x128x96x256_32x32_1x3_16x16x1_16x16x1_1x64x1x4_8x8x1_1x1_intrawave_v3"),
  (2432, "fp8fp8bf16_rowwise_256x128x128x256_32x32_2x2_16x16x1_16x16x1_1x32x1x8_8x8x1_1x1_intrawave_v3"),
  (2944, "fp8fp8bf16_rowwise_256x128x160x128_32x32_1x5_8x32x1_8x32x1_1x64x1x4_8x8x1_1x1_intrawave_v3"),
  (3456, "fp8fp8bf16_rowwise_256x128x192x128_32x32_2x3_8x32x1_8x32x1_1x32x1x8_8x8x1_1x1_intrawave_v3"),
  (4864, "fp8fp8bf16_rowwise_256x256x128x128_16x16_8x4_8x32x1_8x32x1_1x32x1x8_8x8x1_1x2_intrawave_v3"),
  (5888, "fp8fp8bf16_rowwise_256x256x160x128_16x16_8x5_8x32x1_8x32x1_1x64x1x4_8x8x1_2x1_intrawave_v3"),
  (5984, "fp8fp8bf16_rowwise_256x256x192x128_16x16_8x6_8x32x1_8x32x1_1x32x1x8_8x8x1_1x2_intrawave_v3")
]

/-- Per-(N, K) family table `N_896_K_5120_dispatch_table` (std::map, keys ascending). -/
def N_896_K_5120_dispatch_table : List (Int × Kernel) := [
  (64, "fp8fp8bf16_rowwise_128x16x32x128_16x16_1x1_8x16x1_8x16x1_1x16x1x8_4x4x1_1x1_interwave_v2_8"),
  (72, "fp8fp8bf16_rowwise_128x16x32x128_16x16_1x1_8x16x1_8x16x1_1x16x1x8_4x4x1_1x1_intrawave_v2_8"),
  (80, "fp8fp8bf16_rowwise_128x16x32x512_16x16_1x1_32x4x1_32x4x1_1x16x1x8_4x4x1_1x1_interwave_v2_2"),
  (160, "fp8fp8bf16_rowwise_128x32x16x512_16x16_1x1_32x4x1_32x4x1_1x32x1x4_4x4x1_1x1_intrawave_v2"),
  (200, "fp8fp8bf16_rowwise_256x16x64x512_16x16_1x1_32x8x1_32x8x1_1x16x1x16_4x4x1_1x1_intrawave_v3"),
  (256, "fp8fp8bf16_rowwise_256x64x16x512_16x16_1x1_32x8x1_32x8x1_1x64x1x4_4x4x1_1x1_intrawave_v2"),
  (672, "fp8fp8bf16_rowwise_256x32x64x512_16x16_1x2_32x8x1_32x8x1_1x32x1x8_8x8x1_1x2_intrawave_v3"),
  (1344, "fp8fp8bf16_rowwise_256x64x64x512_32x32_1x1_32x8x1_32x8x1_1x32x1x8_8x8x1_1x1_intrawave_v3"),
  (2752, "fp8fp8bf16_rowwise_256x64x128x256_32x32_1x2_16x16x1_16x16x1_1x32x1x8_8x8x1_1x1_intrawave_v3"),
  (3840, "fp8fp8bf16_rowwise_256x128x96x256_32x32_1x3_16x16x1_16x16x1_1x64x1x4_8x8x1_1x1_intrawave_v3"),
  (5504, "fp8fp8bf16_rowwise_256x128x128x256_32x32_2x2_16x16x1_16x16x1_1x32x1x8_8x8x1_1x1_intrawave_v3"),
  (5984, "fp8fp8bf16_rowwise_256x128x160x128_32x32_1x5_8x32x1_8x32x1_1x64x1x4_8x8x1_1x1_intrawave_v3")
]

/-- Per-(N, K) family table `N_5120_K_640_dispatch_table` (std::map, keys ascending). -/
def N_5120_K_640_dispatch_table : List (Int × Kernel) := [
  (64, "fp8fp8bf16_rowwise_128x16x32x128_16x16_1x1_8x16x1_8x16x1_1x16x1x8_4x4x1_1x1_interwave_v2"),
  (80, "fp8fp8bf16_rowwise_128x32x16x128_16x16_1x1_8x16x1_8x16x1_1x16x1x8_2x2x1_1x1_interwave_v2"),
  (112, "fp8fp8bf16_rowwise_128x16x32x128_16x16_1x1_8x16x1_8x16x1_1x16x1x8_4x4x1_1x1_intrawave_v1"),
  (192, "fp8fp8bf16_rowwise_256x64x64x128_32x32_1x1_8x32x1_8x32x1_1x32x1x8_8x8x1_1x1_intrawave_v3"),
  (224, "fp8fp8bf16_rowwise_128x32x64x128_32x32_1x1_8x16x1_8x16x1_1x16x1x8_8x8x1_1x1_interwave_v2"),
  (256, "fp8fp8bf16_rowwise_128x64x32x128_32x32_1x1_8x16x1_8x16x1_1x16x1x8_4x4x1_1x1_interwave_v2"),
  (384, "fp8fp8bf16_rowwise_256x128x64x128_32x32_2x1_8x32x1_8x32x1_1x32x1x8_8x8x1_1x1_intrawave_v3"),
  (448, "fp8fp8bf16_rowwise_256x64x128x128_32x32_1x2_8x32x1_8x32x1_1x32x1x8_8x8x1_1x1_intrawave_v3"),
  (512, "fp8fp8bf16_rowwise_256x128x128x128_32x32_2x2_8x32x1_8x32x1_1x32x1x8_8x8x1_1x1_intrawave_v3"),
  (704, "fp8fp8bf16_rowwise_256x64x192x128_32x32_1x3_8x32x1_8x32x1_1x32x1x8_8x8x1_1x1_intrawave_v3"),
  (896, "fp8fp8bf16_rowwise_256x128x128x128_32x32_2x2_8x32x1_8x32x1_1x32x1x8_8x8x1_1x1_intrawave_v3"),
  (960, "fp8fp8bf16_rowwise_256x64x256x128_32x32_1x4_8x32x1_8x32x1_1x32x1x8_8x8x1_1x1_intrawave_v3"),
  (1152, "fp8fp8bf16_rowwise_256x128x160x128_32x32_1x5_8x32x1_8x32x1_1x64x1x4_8x8x1_1x1_intrawave_v3"),
  (1280, "fp8fp8bf16_rowwise_256x256x96x128_32x32_2x3_8x32x1_8x32x1_1x64x1x4_8x8x1_2x1_intrawave_v3"),
  (1408, "fp8fp8bf16_rowwise_256x128x192x128_32x32_2x3_8x32x1_8x32x1_1x32x1x8_8x8x1_1x1_intrawave_v3"),
  (1920, "fp8fp8bf16_rowwise_256x128x128x128_32x32_2x2_8x32x1_8x32x1_1x32x1x8_8x8x1_1x1_intrawave_v3"),
  (2304, "fp8fp8bf16_rowwise_256x256x160x128_16x16_8x5_8x32x1_8x32x1_1x64x1x4_8x8x1_2x1_intrawave_v3"),
  (2816, "fp8fp8bf16_rowwise_256x256x192x128_16x16_8x6_8x32x1_8x32x1_1x32x1x8_8x8x1_1x2_intrawave_v3"),
  (3360, "fp8fp8bf16_rowwise_256x224x256x128_16x16_7x8_8x32x1_8x32x1_1x32x1x8_8x8x1_1x2_intrawave_v3"),
  (3840, "fp8fp8bf16_rowwise_256x256x256x128_16x16_8x8_8x32x1_8x32x1_1x32x1x8_8x8x1_1x2_intrawave_v3"),
  (4864, "fp8fp8bf16_rowwise_256x256x160x128_16x16_8x5_8x32x1_8x32x1_1x64x1x4_8x8x1_2x1_intrawave_v3"),
  (5520, "fp8fp8bf16_rowwise_256x256x192x128_16x16_8x6_8x32x1_8x32x1_1x32x1x8_8x8x1_1x2_intrawave_v3"),
  (5760, "fp8fp8bf16_rowwise_256x128x128x128_32x32_2x2_8x32x1_8x32x1_1x32x1x8_8x8x1_1x1_intrawave_v3"),
  (5984, "fp8fp8bf16_rowwise_256x224x256x128_16x16_7x8_8x32x1_8x32x1_1x32x1x8_8x8x1_1x2_intrawave_v3")
]

/-- Per-(N, K) family table `N_4096_K_5120_dispatch_table` (std::map, keys ascending). -/
def N_4096_K_5120_dispatch_table : List (Int × Kernel) := [
  (16, "fp8fp8bf16_rowwise_128x16x32x512_16x16_1x1_32x4x1_32x4x1_1x16x1x8_4x4x1_1x1_interwave_v2"),
  (32, "fp8fp8bf16_rowwise_128x32x16x512_16x16_1x1_32x4x1_32x4x1_1x32x1x4_4x4x1_1x1_interwave_v2"),
  (48, "fp8fp8bf16_rowwise_256x16x64x512_16x16_1x1_32x8x1_32x8x1_1x16x1x16_4x4x1_1x1_intrawave_v3"),
  (128, "fp8fp8bf16_rowwise_256x32x64x512_16x16_1x2_32x8x1_32x8x1_1x32x1x8_8x8x1_1x2_intrawave_v3"),
  (256, "fp8fp8bf16_rowwise_256x64x64x512_32x32_1x1_32x8x1_32x8x1_1x32x1x8_8x8x1_1x1_intrawave_v3"),
  (288, "fp8fp8bf16_rowwise_256x32x128x256_32x32_1x1_16x16x1_16x16x1_1x32x1x8_8x8x1_1x1_intrawave_v3"),
  (576, "fp8fp8bf16_rowwise_256x64x128x256_32x32_1x2_16x16x1_16x16x1_1x32x1x8_8x8x1_1x1_intrawave_v3"),
  (896, "fp8fp8bf16_rowwise_256x128x96x128_16x16_4x3_8x32x1_8x32x1_1x64x1x4_8x8x1_2x1_intrawave_v3"),
  (1152, "fp8fp8bf16_rowwise_256x128x128x128_16x16_4x4_8x32x1_8x32x1_1x32x1x8_8x8x1_1x2_intrawave_v3"),
  (1392, "fp8fp8bf16_rowwise_256x128x160x128_16x16_4x5_8x32x1_8x32x1_1x64x1x4_8x8x1_2x1_intrawave_v3"),
  (1440, "fp8fp8bf16_rowwise_256x160x128x128_16x16_5x4_8x32x1_8x32x1_1x32x1x8_8x8x1_1x2_intrawave_v3"),
  (1776, "fp8fp8bf16_rowwise_256x128x96x128_16x16_4x3_8x32x1_8x32x1_1x64x1x4_8x8x1_2x1_intrawave_v3"),
  (1824, "fp8fp8bf16_rowwise_256x96x128x128_16x16_3x4_8x32x1_8x32x1_1x32x1x8_8x8x1_1x2_intrawave_v3"),
  (2240, "fp8fp8bf16_rowwise_256x160x96x128_16x16_5x3_8x32x1_8x32x1_1x32x1x8_4x4x1_1x1_intrawave_v3"),
  (2496, "fp8fp8bf16_rowwise_256x192x192x128_16x16_6x6_8x32x1_8x32x1_1x32x1x8_8x8x1_1x2_intrawave_v3"),
  (2816, "fp8fp8bf16_rowwise_256x256x160x128_16x16_8x5_8x32x1_8x32x1_1x64x1x4_8x8x1_2x1_intrawave_v3"),
  (2896, "fp8fp8bf16_rowwise_256x224x192x128_16x16_7x6_8x32x1_8x32x1_1x32x1x8_8x8x1_1x2_intrawave_v3"),
  (3040, "fp8fp8bf16_rowwise_256x160x256x128_16x16_5x8_8x32x1_8x32x1_1x32x1x8_8x8x1_1x2_intrawave_v3"),
  (3072, "fp8fp8bf16_rowwise_256x192x224x128_16x16_6x7_8x32x1_8x32x1_1x64x1x4_8x8x1_2x1_intrawave_v3"),
  (3328, "fp8fp8bf16_rowwise_256x256x192x128_16x16_8x6_8x32x1_8x32x1_1x32x1x8_8x8x1_1x2_intrawave_v3"),
  (3648, "fp8fp8bf16_rowwise_256x192x256x128_16x16_6x8_8x32x1_8x32x1_1x32x1x8_8x8x1_1x2_intrawave_v3"),
  (4096, "fp8fp8bf16_rowwise_256x256x224x128_16x16_8x7_8x32x1_8x32x1_1x64x1x4_8x8x1_2x1_intrawave_v3"),
  (4256, "fp8fp8bf16_rowwise_256x224x256x128_16x16_7x8_8x32x1_8x32x1_1x32x1x8_8x8x1_1x2_intrawave_v3"),
  (4832, "fp8fp8bf16_rowwise_256x256x256x64_32x32_4x4_4x64x1_4x64x1_1x32x1x8_8x8x1_1x1_intrawave_v4"),
  (4864, "fp8fp8bf16_rowwise_256x256x256x128_16x16_8x8_8x32x1_8x32x1_1x32x1x8_8x8x1_1x2_intrawave_v3"),
  (5152, "fp8fp8bf16_rowwise_256x224x160x128_16x16_7x5_8x32x1_8x32x1_1x32x1x8_4x4x1_1x1_intrawave_v3"),
  (5184, "fp8fp8bf16_rowwise_256x192x192x128_16x16_6x6_8x32x1_8x32x1_1x32x1x8_8x8x1_1x2_intrawave_v3"),
  (5888, "fp8fp8bf16_rowwise_256x256x160x128_16x16_8x5_8x32x1_8x32x1_1x64x1x4_8x8x1_2x1_intrawave_v3"),
  (5920, "fp8fp8bf16_rowwise_256x160x256x128_16x16_5x8_8x32x1_8x32x1_1x32x1x8_8x8x1_1x2_intrawave_v3"),
  (5984, "fp8fp8bf16_rowwise_256x224x192x128_16x16_7x6_8x32x1_8x32x1_1x32x1x8_8x8x1_1x2_intrawave_v3")
]

/-- Per-(N, K) family table `N_5120_K_2048_dispatch_table` (std::map, keys ascending). -/
def N_5120_K_2048_dispatch_table : List (Int × Kernel) := [
  (48, "fp8fp8bf16_rowwise_256x16x64x512_16x16_1x1_32x8x1_32x8x1_1x16x1x16_4x4x1_1x1_intrawave_v2"),
  (96, "fp8fp8bf16_rowwise_256x32x64x512_16x16_1x2_32x8x1_32x8x1_1x32x1x8_8x8x1_1x2_intrawave_v3"),
  (192, "fp8fp8bf16_rowwise_256x64x64x512_32x32_1x1_32x8x1_32x8x1_1x32x1x8_8x8x1_1x1_intrawave_v3"),
  (224, "fp8fp8bf16_rowwise_256x32x128x256_32x32_1x1_16x16x1_16x16x1_1x32x1x8_8x8x1_1x1_intrawave_v3"),
  (384, "fp8fp8bf16_rowwise_256x128x64x256_32x32_2x1_16x16x1_16x16x1_1x32x1x8_8x8x1_1x1_intrawave_v3"),
  (448, "fp8fp8bf16_rowwise_256x64x128x256_32x32_1x2_16x16x1_16x16x1_1x32x1x8_8x8x1_1x1_intrawave_v3"),
  (560, "fp8fp8bf16_rowwise_256x80x128x256_16x16_5x2_16x16x1_16x16x1_1x16x1x16_8x8x1_1x2_intrawave_v3"),
  (608, "fp8fp8bf16_rowwise_256x128x96x128_16x16_4x3_8x32x1_8x32x1_1x64x1x4_8x8x1_2x1_intrawave_v3"),
  (672, "fp8fp8bf16_rowwise_256x96x128x128_16x16_3x4_8x32x1_8x32x1_1x32x1x8_8x8x1_1x2_intrawave_v3"),
  (896, "fp8fp8bf16_rowwise_256x128x128x128_16x16_4x4_8x32x1_8x32x1_1x32x1x8_8x8x1_1x2_intrawave_v3"),
  (1008, "fp8fp8bf16_rowwise_256x128x160x128_16x16_4x5_8x32x1_8x32x1_1x64x1x4_8x8x1_2x1_intrawave_v3"),
  (1120, "fp8fp8bf16_rowwise_256x160x128x128_16x16_5x4_8x32x1_8x32x1_1x32x1x8_8x8x1_1x2_intrawave_v3"),
  (1408, "fp8fp8bf16_rowwise_256x128x96x128_16x16_4x3_8x32x1_8x32x1_1x64x1x4_8x8x1_2x1_intrawave_v3"),
  (1440, "fp8fp8bf16_rowwise_256x96x128x128_16x16_3x4_8x32x1_8x32x1_1x32x1x8_8x8x1_1x2_intrawave_v3"),
  (1536, "fp8fp8bf16_rowwise_256x128x128x128_16x16_4x4_8x32x1_8x32x1_1x32x1x8_8x8x1_1x2_intrawave_v3"),
  (1600, "fp8fp8bf16_rowwise_256x160x96x128_16x16_5x3_8x32x1_8x32x1_1x32x1x8_4x4x1_1x1_intrawave_v3"),
  (1920, "fp8fp8bf16_rowwise_256x128x128x128_16x16_4x4_8x32x1_8x32x1_1x32x1x8_8x8x1_1x2_intrawave_v3"),
  (2112, "fp8fp8bf16_rowwise_256x192x192x128_16x16_6x6_8x32x1_8x32x1_1x32x1x8_8x8x1_1x2_intrawave_v3"),
  (2400, "fp8fp8bf16_rowwise_256x160x256x128_16x16_5x8_8x32x1_8x32x1_1x32x1x8_8x8x1_1x2_intrawave_v3"),
  (2464, "fp8fp8bf16_rowwise_256x224x192x128_16x16_7x6_8x32x1_8x32x1_1x32x1x8_8x8x1_1x2_intrawave_v3"),
  (2496, "fp8fp8bf16_rowwise_256x192x224x128_16x16_6x7_8x32x1_8x32x1_1x64x1x4_8x8x1_2x1_intrawave_v3"),
  (2816, "fp8fp8bf16_rowwise_256x256x192x128_16x16_8x6_8x32x1_8x32x1_1x32x1x8_8x8x1_1x2_intrawave_v3"),
  (2880, "fp8fp8bf16_rowwise_256x192x256x128_16x16_6x8_8x32x1_8x32x1_1x32x1x8_8x8x1_1x2_intrawave_v3"),
  (3328, "fp8fp8bf16_rowwise_256x256x224x128_16x16_8x7_8x32x1_8x32x1_1x64x1x4_8x8x1_2x1_intrawave_v3"),
  (3360, "fp8fp8bf16_rowwise_256x224x256x128_16x16_7x8_8x32x1_8x32x1_1x32x1x8_8x8x1_1x2_intrawave_v3"),
  (3840, "fp8fp8bf16_rowwise_256x256x256x128_16x16_8x8_8x32x1_8x32x1_1x32x1x8_8x8x1_1x2_intrawave_v3"),
  (4224, "fp8fp8bf16_rowwise_256x192x192x128_16x16_6x6_8x32x1_8x32x1_1x32x1x8_8x8x1_1x2_intrawave_v3"),
  (4736, "fp8fp8bf16_rowwise_256x128x128x128_16x16_4x4_8x32x1_8x32x1_1x32x1x8_8x8x1_1x2_intrawave_v3"),
  (4864, "fp8fp8bf16_rowwise_256x256x160x128_16x16_8x5_8x32x1_8x32x1_1x64x1x4_8x8x1_2x1_intrawave_v3"),
  (4928, "fp8fp8bf16_rowwise_256x224x192x128_16x16_7x6_8x32x1_8x32x1_1x32x1x8_8x8x1_1x2_intrawave_v3"),
  (4992, "fp8fp8bf16_rowwise_256x192x224x128_16x16_6x7_8x32x1_8x32x1_1x64x1x4_8x8x1_2x1_intrawave_v3"),
  (5632, "fp8fp8bf16_rowwise_256x256x192x128_16x16_8x6_8x32x1_8x32x1_1x32x1x8_8x8x1_1x2_intrawave_v3"),
  (5760, "fp8fp8bf16_rowwise_256x192x256x128_16x16_6x8_8x32x1_8x32x1_1x32x1x8_8x8x1_1x2_intrawave_v3"),
  (5984, "fp8fp8bf16_rowwise_256x256x224x128_16x16_8x7_8x32x1_8x32x1_1x64x1x4_8x8x1_2x1_intrawave_v3")
]

/-- The (N, K) -> family-table map `NK_lookup_table`. -/
def NK_lookup_table : List ((Int × Int) × List (Int × Kernel)) := [
  ((7168, 8192), N_7168_K_8192_dispatch_table),
  ((8192, 3584), N_8192_K_3584_dispatch_table),
  ((1024, 5120), N_1024_K_5120_dispatch_table),
  ((5120, 1024), N_5120_K_1024_dispatch_table),
  ((2048, 5120), N_2048_K_5120_dispatch_table),
  ((896, 5120), N_896_K_5120_dispatch_table),
  ((5120, 640), N_5120_K_640_dispatch_table),
  ((4096, 5120), N_4096_K_5120_dispatch_table),
  ((5120, 2048), N_5120_K_2048_dispatch_table)
]

/-! ## Family-table lookup, bucketing and the rowwise dispatch chain -/

/-- Family-table lookup, returning the chosen map entry.  Mirrors
`rowwise_nk_lookup`: `table.lower_bound(M)` on a std::map (keys in
ascending order) yields the first entry whose key is `≥ M`; if there is
none, the code steps back to the last entry.  We model the map by its
ascending entry list; the source function would be undefined on an empty
map, which the model reflects by returning none. -/
def rowwise_nk_lookup_entry (M : Int) (table : List (Int × Kernel)) :
    Option (Int × Kernel) :=
  match table.find? (fun p => decide (M ≤ p.1)) with
  | some p => some p
  | none => table.getLast?

/-- Family-table lookup result (the kernel of the chosen entry), i.e.
`it->second` of `rowwise_nk_lookup`. -/
def rowwise_nk_lookup (M : Int) (table : List (Int × Kernel)) : Option Kernel :=
  (rowwise_nk_lookup_entry M table).map Prod.snd

/-- Bucketing of small M performed at the top of `rowwise_dispatch`:
M is rounded up to 16 / 32 / 64 / 128, and left unchanged above 128. -/
def padded_m_of (M : Int) : Int :=
  if M ≤ 16 then 16
  else if M ≤ 32 then 32
  else if M ≤ 64 then 64
  else if M ≤ 128 then 128
  else M

/-- Which stage of the lookup chain produced the kernel. -/
inductive DispatchPath where
  | exact
  | family
  | heuristic
deriving Repr, DecidableEq

/-- The fp8 rowwise dispatch chain `rowwise_dispatch`: bucket M, try the
exact (padded_m, N, K) lookup table, else the (N, K) family tables, else
the heuristic.  The hash-map `find` calls become key-equality searches
(keys are unique, see `rowwise_lookup_dispatch_keys_nodup`).  The result
records which stage answered, so that "returns immediately without
consulting the family tables or the heuristic" is expressible. -/
def rowwise_dispatch (M N K : Int) : DispatchPath × Option Kernel :=
  let padded_m := padded_m_of M
  match rowwise_lookup_dispatch.find? (fun p => intTupleEq3 p.1 (padded_m, N, K)) with
  | some p => (.exact, some p.2)
  | none =>
    match NK_lookup_table.find? (fun p => intTupleEq2 p.1 (N, K)) with
    | some p => (.family, rowwise_nk_lookup M p.2)
    | none => (.heuristic, some (rowwise_heuristic_dispatch M N K))

/-! ## The f8f8 rowwise wrapper entry points

`f8f8_rowwise_wrapper` / `f8f8_rowwise_preshuffle_wrapper` compute
M as the product of all but the last input dimension
(`size_to_dim_(XQ.dim() - 1, XQ.sizes())`), N and K from WQ, and
short-circuit to `at::zeros` of the output shape when any of M, N, K is
zero, before any kernel selection.  Dtype / device / layout checks are
orthogonal to shapes and are assumed to have passed. -/

/-- Product of the first k dimensions, i.e. `size_to_dim_(k, sizes)`. -/
def size_to_dim (k : Nat) (sizes : List Nat) : Nat :=
  (sizes.take k).foldl (· * ·) 1

/-- Result of a rowwise wrapper call, up to kernel invocation.  The
`zeros` constructor is the `at::zeros(out_sizes, ...)` short-circuit: an
all-zero tensor of the given shape is returned and no kernel is selected
or invoked.  The `launched` constructor records the dispatch decision made
for the nonzero shape and the output shape. -/
inductive RowwiseCallResult where
  | zeros (outSizes : List Nat)
  | launched (choice : DispatchPath × Option Kernel) (outSizes : List Nat)
deriving Repr, DecidableEq

/-- Shape-level model of `f8f8_rowwise_wrapper` (ck_extensions.hip).
`xqSizes` is XQ's dimension list; N and K are `WQ.size(0)` and
`WQ.size(1)`. -/
def f8f8_rowwise_wrapper (xqSizes : List Nat) (N K : Nat) : RowwiseCallResult :=
  let M := size_to_dim (xqSizes.length - 1) xqSizes
  let outSizes := xqSizes.dropLast ++ [N]
  if M = 0 ∨ N = 0 ∨ K = 0 then
    .zeros outSizes
  else
    .launched (rowwise_dispatch (M : Int) (N : Int) (K : Int)) outSizes

/-- Result of a preshuffle wrapper call, up to kernel invocation. -/
inductive PreshuffleCallResult where
  | zeros (outSizes : List Nat)
  | launched (kernel : Kernel) (outSizes : List Nat)
deriving Repr, DecidableEq

/-- Shape-level model of `f8f8_rowwise_preshuffle_wrapper`: identical
zero-dimension short-circuit, then heuristic-only kernel selection. -/
def f8f8_rowwise_preshuffle_wrapper (xqSizes : List Nat) (N K : Nat) :
    PreshuffleCallResult :=
  let M := size_to_dim (xqSizes.length - 1) xqSizes
  let outSizes := xqSizes.dropLast ++ [N]
  if M = 0 ∨ N = 0 ∨ K = 0 then
    .zeros outSizes
  else
    .launched (rowwise_preshuffle_heuristic_dispatch (M : Int) (N : Int) (K : Int)) outSizes

/-! ## The bf16_gemm entry point -/

/-- Template configuration of a `bf16_gemm_impl` instantiation. -/
structure Bf16GemmConfig where
  blockSize : Int
  mblock : Int
  nblock : Int
  kblock : Int
  mperXdl : Int
  nperXdl : Int
  mperWave : Int
  nperWave : Int
  cnperWave : Int
  padding : Bool
deriving Repr, DecidableEq

/-- Shape-level model of `bf16_gemm_impl`: the TORCH_CHECK guard
`M >= 128 && N >= 128 && K >= 256` runs before anything else; on success
the chosen instance runs (we return its configuration). -/
def bf16_gemm_impl (cfg : Bf16GemmConfig) (M N K : Int) :
    Except String Bf16GemmConfig :=
  if M ≥ 128 ∧ N ≥ 128 ∧ K ≥ 256 then
    .ok cfg
  else
    .error "Minimum supported M,N,K is 128,128,256."

/-- Shape-level model of `bf16_gemm`: picks padding and block
configuration from the shape, then calls `bf16_gemm_impl` (dtype checks
are orthogonal to shapes and assumed to have passed). -/
def bf16_gemm (M N K : Int) : Except String Bf16GemmConfig :=
  let use_padding := (M % 256 ≠ 0) ∨ (N % 256 ≠ 0) ∨ (K % 256 ≠ 0)
  if use_padding then
    if (M ≥ 8192 ∧ N ≥ 4096) ∨ (N ≥ 8192 ∧ M ≥ 4096) then
      bf16_gemm_impl ⟨256, 256, 128, 64, 16, 16, 8, 4, 2, true⟩ M N K
    else
      bf16_gemm_impl ⟨256, 128, 128, 64, 16, 16, 4, 4, 2, true⟩ M N K
  else
    if (M ≥ 8192 ∧ N ≥ 4096) ∨ (N ≥ 8192 ∧ M ≥ 4096) then
      bf16_gemm_impl ⟨256, 256, 128, 64, 16, 16, 8, 4, 2, false⟩ M N K
    else
      bf16_gemm_impl ⟨256, 128, 128, 64, 16, 16, 4, 4, 2, false⟩ M N K

/-! ## Grouped argument building (fp8_rowwise_grouped_gemm.hip)

The device kernel `set_kernel_args` writes one `KernelArguments` record
per group into a contiguous buffer.  Every thread first writes a default
(all-zero-dimension) record at its own index; after the barrier, each
thread whose group has all of M, N, K nonzero claims a slot from an
atomically incremented counter and writes the real record there.  We model
the grid sequentially in ascending group index (the spec's sanctioned
single-threaded reimplementation of the atomic slot counter); the `int`
narrowing casts on the stored fields are modelled as the identity, which
agrees with the source for all shapes below 2^31. -/

/-- Grouping topology tag from fp8_rowwise_grouped_gemm.hip (the leading
underscore of the C++ enumerators is spelled `g` here). -/
inductive GroupedGemmInputType where
  | g3D3D
  | g2D2D
  | g3D2D
  | g2D3D
deriving Repr, DecidableEq

/-- One `GroupedGemmKernelArgument` record: operand pointer offsets (in
elements, relative to the tensor base pointers), the group's problem
dimensions and the strides. -/
structure KernelArgsRec where
  xqOff : Int
  wqOff : Int
  wScaleOff : Int
  xScaleOff : Int
  outOff : Int
  M : Int
  N : Int
  K : Int
  strideA : Int
  strideB : Int
  strideE : Int
deriving Repr, DecidableEq

/-- The default record every thread writes first: base pointers with no
offsets, and all dimensions and strides zero. -/
def defaultGroupArgs : KernelArgsRec :=
  ⟨0, 0, 0, 0, 0, 0, 0, 0, 0, 0, 0⟩

/-- The record thread `i` of `set_kernel_args` would build for its group:
the per-topology resolution of the dynamic dimension and the pointer
offsets, as in the source.  The source leaves the offsets unset when the
group is skipped; we compute them unconditionally, which agrees with the
source on every record that is actually written. -/
def resolveGroupArgs (mSizes offsets : Option (List Int)) (M N K : Int)
    (input_type : Option GroupedGemmInputType) (i : Nat) : KernelArgsRec :=
  match mSizes with
  | some ms =>
    let M_group := ms.getD i 0
    let offset_M := (ms.take i).sum
    ⟨offset_M * K, (i : Int) * N * K, (i : Int) * N, offset_M, offset_M * N,
      M_group, N, K, K, K, N⟩
  | none =>
    match offsets with
    | some offs =>
      let prev := if i = 0 then 0 else offs.getD (i - 1) 0
      let cur := offs.getD i 0
      match input_type with
      | some .g2D3D =>
        ⟨prev * K, (i : Int) * N * K, (i : Int) * N, prev, prev * N,
          cur - prev, N, K, K, K, N⟩
      | some .g3D2D =>
        ⟨(i : Int) * M * K, prev * K, prev, (i : Int) * M, prev,
          M, cur - prev, K, K, K, N⟩
      | some .g2D2D =>
        ⟨prev, prev, (i : Int) * N, (i : Int) * M, (i : Int) * M * N,
          M, N, cur - prev, K, K, N⟩
      | _ =>
        ⟨(i : Int) * M * K, (i : Int) * N * K, (i : Int) * N, (i : Int) * M,
          (i : Int) * M * N, M, N, K, K, K, N⟩
    | none =>
      ⟨(i : Int) * M * K, (i : Int) * N * K, (i : Int) * N, (i : Int) * M,
        (i : Int) * M * N, M, N, K, K, K, N⟩

/-- The `set_kernel_args` device kernel, sequentially: the buffer starts
as defaults, then each group with all of M, N, K positive overwrites the
next free slot (running counter) with its record. -/
def set_kernel_args (mSizes offsets : Option (List Int)) (M N K : Int)
    (group_count : Nat) (input_type : Option GroupedGemmInputType) :
    List KernelArgsRec :=
  ((List.range group_count).foldl
    (fun st i =>
      let r := resolveGroupArgs mSizes offsets M N K input_type i
      if 0 < r.M ∧ 0 < r.N ∧ 0 < r.K then (st.1.set st.2 r, st.2 + 1) else st)
    (List.replicate group_count defaultGroupArgs, 0)).1

/-- The records of exactly those groups whose resolved M, N, K are all
positive, in group-index order.  This is the specification-side view of
the emitted argument records. -/
def emitted_group_records (mSizes offsets : Option (List Int)) (M N K : Int)
    (group_count : Nat) (input_type : Option GroupedGemmInputType) :
    List KernelArgsRec :=
  (List.range group_count).filterMap (fun i =>
    let r := resolveGroupArgs mSizes offsets M N K input_type i
    if 0 < r.M ∧ 0 < r.N ∧ 0 < r.K then some r else none)

/-! ## Grouped GEMM entry-point validation

Shape-level models of the grouped entry points, covering every
TORCH_CHECK that depends on shapes, in source order (device, dtype and
contiguity checks are orthogonal to shapes and assumed to have passed).
`launch` means validation passed and the call proceeds to argument build
and kernel selection with the recorded (G, M, N, K). -/

/-- Outcome of a grouped entry point, up to kernel invocation. -/
inductive GroupedOutcome where
  | invalidArg (msg : String)
  | emptyExit
  | launch (G M N K : Int)
deriving Repr, DecidableEq

/-- Shape-level model of `_f8f8bf16_rowwise_grouped` (the TensorList entry
points f8f8bf16_rowwise_grouped / _cat).  Each XQ group is (M, K), each WQ
group is (N, K); the scale lists enter through their group counts. -/
def f8f8bf16_rowwise_grouped (XQ WQ : List (Int × Int))
    (xScaleCount wScaleCount : Nat) : GroupedOutcome :=
  if ¬(XQ.length = WQ.length ∧ XQ.length = xScaleCount ∧
        XQ.length = wScaleCount) then
    .invalidArg "All inputs must have the same number of groups."
  else
    match WQ.find? (fun w => !(decide (w.1 ≥ 512) && decide (w.2 ≥ 512))) with
    | some _ =>
      .invalidArg "N and K must be at least 512 for grouped gemm. For smaller inputs, consider unrolling."
    | none =>
      let total_M := (XQ.map Prod.fst).sum
      let MaxN := (WQ.map Prod.fst).foldl max 0
      let MaxK := (XQ.map Prod.snd).foldl max 0
      .launch (XQ.length : Int) total_M MaxN MaxK

/-- Shape-level model of `f8f8bf16_rowwise_grouped_stacked`. -/
def f8f8bf16_rowwise_grouped_stacked (xqDims wqDims : List Int)
    (mSizesCount xScaleNumel wScaleNumel : Int) : GroupedOutcome :=
  let group_count := mSizesCount
  let total_M := xqDims.getD 0 0
  let N := wqDims.getD 1 0
  let K := xqDims.getD 1 0
  if ¬(wqDims.getD 0 0 = group_count ∧ xScaleNumel = total_M ∧
        wScaleNumel / group_count = N) then
    .invalidArg "All inputs must have the same number of groups."
  else if ¬(xqDims.length = 2) then
    .invalidArg "Input XQ must be 2D (total_M,K)."
  else if ¬(wqDims.length = 3) then
    .invalidArg "Input WQ must be 3D (G,N,K)."
  else if ¬(wqDims.getD 1 0 ≥ 512 ∧ wqDims.getD 2 0 ≥ 512) then
    .invalidArg "N and K must be at least 512 for grouped gemm. For smaller inputs, consider unrolling."
  else if total_M = 0 then
    .emptyExit
  else
    .launch group_count total_M N K

/-- Shape-level model of `f8f8bf16_rowwise_grouped_dynamic`. -/
def f8f8bf16_rowwise_grouped_dynamic (xqDims wqDims : List Int)
    (xScaleNumel wScaleNumel : Int) : GroupedOutcome :=
  let group_count := xqDims.getD 0 0
  let M := xqDims.getD 1 0
  let N := wqDims.getD 1 0
  let K := wqDims.getD 2 0
  if ¬(wqDims.getD 0 0 = group_count ∧ xScaleNumel / group_count = M ∧
        wScaleNumel / group_count = N) then
    .invalidArg "All inputs must have the same number of groups."
  else if ¬(xqDims.length = 3) then
    .invalidArg "Input XQ must be 3D (G,M,K)."
  else if ¬(wqDims.length = 3) then
    .invalidArg "Input WQ must be 3D (G,N,K)."
  else if ¬(wqDims.getD 1 0 ≥ 512 ∧ wqDims.getD 2 0 ≥ 512) then
    .invalidArg "N and K must be at least 512 for grouped gemm. For smaller inputs, consider unrolling."
  else if group_count * M * N = 0 then
    .emptyExit
  else
    .launch group_count M N K

/-- Shape-level model of `bf16bf16bf16_grouped_stacked`
(ck_extensions.hip). -/
def bf16bf16bf16_grouped_stacked (xDims wDims : List Int)
    (mSizesCount : Int) : GroupedOutcome :=
  let group_count := mSizesCount
  let total_M := xDims.getD 0 0
  let N := wDims.getD 1 0
  let K := xDims.getD 1 0
  if ¬(wDims.getD 0 0 = group_count) then
    .invalidArg "All inputs must have the same number of groups."
  else if ¬(xDims.length = 2) then
    .invalidArg "Input X must be 2D (total_M,K)."
  else if ¬(wDims.length = 3) then
    .invalidArg "Input W must be 3D (G,N,K)."
  else if ¬(wDims.getD 1 0 ≥ 512 ∧ wDims.getD 2 0 ≥ 512) then
    .invalidArg "N and K must be at least 512 for grouped gemm. For smaller inputs, consider unrolling."
  else if total_M = 0 then
    .emptyExit
  else
    .launch group_count total_M N K

/-- Shape-level model of `f8f8bf16_rowwise_grouped_mm`, the PyTorch
compliant grouped entry point: the four topology branches with every
shape check in source order, the empty-output early exit, and the
per-group normalization of the dynamic dimension before kernel
selection. -/
def f8f8bf16_rowwise_grouped_mm (xqDims wqDims xScaleDims wScaleDims : List Int)
    (offsetsCount : Option Int) (outDims : List Int) : GroupedOutcome :=
  if xqDims.length = 2 ∧ wqDims.length = 3 then
    match offsetsCount with
    | none => .invalidArg "Must pass offsets for 2D input XQ."
    | some G =>
      let M := xqDims.getD 0 0
      let N := wqDims.getD 1 0
      let K := wqDims.getD 2 0
      if ¬(xqDims.getD 1 0 = K ∧ wqDims.getD 0 0 = G) then
        .invalidArg "XQ shape must be (total_M, K) and WQ shape must be (G, N, K)."
      else if ¬(xScaleDims.getD 0 0 = M) then
        .invalidArg "x_scale shape must be (total_M)."
      else if ¬(wScaleDims.getD 0 0 = G ∧ wScaleDims.getD 1 0 = N) then
        .invalidArg "w_scale shape must be (G, N)."
      else if ¬(outDims.length = 2 ∧ outDims.getD 0 0 = M ∧ outDims.getD 1 0 = N) then
        .invalidArg "out shape must be (total_M, N)."
      else if outDims.foldl (· * ·) 1 = 0 then
        .emptyExit
      else
        .launch G (M / G) N K
  else if xqDims.length = 3 ∧ wqDims.length = 2 then
    match offsetsCount with
    | none => .invalidArg "Must pass offsets for 2D input WQ."
    | some G =>
      let M := xqDims.getD 1 0
      let N := wqDims.getD 0 0
      let K := wqDims.getD 1 0
      if ¬(xqDims.getD 0 0 = G ∧ xqDims.getD 2 0 = K) then
        .invalidArg "XQ shape must be (G, M, K) and WQ shape must be (total_N, K)."
      else if ¬(xScaleDims.getD 0 0 = G ∧ xScaleDims.getD 1 0 = M) then
        .invalidArg "x_scale shape must be (G, M)."
      else if ¬(wScaleDims.getD 0 0 = N) then
        .invalidArg "w_scale shape must be (total_N)."
      else if ¬(outDims.length = 2 ∧ outDims.getD 0 0 = M ∧ outDims.getD 1 0 = N) then
        .invalidArg "out shape must be (M, total_N)."
      else if outDims.foldl (· * ·) 1 = 0 then
        .emptyExit
      else
        .launch G M (N / G) K
  else if xqDims.length = 3 ∧ wqDims.length = 3 then
    if offsetsCount.isSome then
      .invalidArg "Offsets should not be passed for 3D-3D inputs."
    else
      let G := xqDims.getD 0 0
      let M := xqDims.getD 1 0
      let N := wqDims.getD 1 0
      let K := xqDims.getD 2 0
      if ¬(wqDims.getD 0 0 = G ∧ wqDims.getD 2 0 = K) then
        .invalidArg "XQ shape must be (G, M, K) and WQ shape must be (G, N, K)."
      else if ¬(xScaleDims.getD 0 0 = G ∧ xScaleDims.getD 1 0 = M) then
        .invalidArg "x_scale shape must be (G, M)."
      else if ¬(wScaleDims.getD 0 0 = G ∧ wScaleDims.getD 1 0 = N) then
        .invalidArg "w_scale shape must be (G, N)."
      else if ¬(outDims.length = 3 ∧ outDims.getD 0 0 = G ∧ outDims.getD 1 0 = M ∧
                 outDims.getD 2 0 = N) then
        .invalidArg "out shape must be (G, M, N)."
      else if outDims.foldl (· * ·) 1 = 0 then
        .emptyExit
      else
        .launch G M N K
  else if xqDims.length = 2 ∧ wqDims.length = 2 then
    match offsetsCount with
    | none => .invalidArg "Must pass offsets for 2D inputs XQ and WQ."
    | some G =>
      let M := xqDims.getD 0 0
      let N := wqDims.getD 0 0
      let K := xqDims.getD 1 0
      if ¬(wqDims.getD 1 0 = K) then
        .invalidArg "XQ shape must be (M, total_K) and WQ shape must be (N, total_K)."
      else if ¬(xScaleDims.getD 0 0 = G * M) then
        .invalidArg "x_scale shape must be (G * M)."
      else if ¬(wScaleDims.getD 0 0 = G * N) then
        .invalidArg "w_scale shape must be (G * N)."
      else if ¬(outDims.length = 3 ∧ outDims.getD 0 0 = G ∧ outDims.getD 1 0 = M ∧
                 outDims.getD 2 0 = N) then
        .invalidArg "out shape must be (G, M, N)."
      else if outDims.foldl (· * ·) 1 = 0 then
        .emptyExit
      else
        .launch G M N (K / G)
  else
    .invalidArg "Invalid input shapes. Must be one of 2D-2D, 3D-3D, 2D-3D, 3D-2D."

/-! ## Tuning-cache shape key (get_kernel_via_tuning) -/

/-- Fuel-bounded search for the least power of two that is at least the
target: doubling the accumulator until it reaches the target. -/
def nextPow2Go (target : Nat) : Nat → Nat → Nat
  | 0, acc => acc
  | fuel + 1, acc => if target ≤ acc then acc else nextPow2Go target fuel (acc * 2)

/-- Modelled from the spec: `nextPowerOf2` (declared in
fbgemm_gpu/quantize/utils.h, which is not under src/) rounds a positive
integer up to the next power of two; values at most one map to one.
The fuel `n.toNat` suffices since doubling from 1 that many times always
reaches the target. -/
def nextPowerOf2 (n : Int) : Int :=
  ((nextPow2Go n.toNat n.toNat 1 : Nat) : Int)

/-- The tuning-cache shape key built by `get_kernel_via_tuning`: each of
M, N, K is rounded up to the next power of two and the triple is
serialized as "M_N_K". -/
def tuning_shape_key (M N K : Int) : String :=
  toString (nextPowerOf2 M) ++ "_" ++ toString (nextPowerOf2 N) ++ "_" ++
    toString (nextPowerOf2 K)

/-- Modelled from the spec: the tuning cache maps shape-key strings to the
best kernel measured for that key; consulting it under
`get_kernel_via_tuning` reads the entry at the computed shape key. -/
def tuning_cache_entry (cache : String → Option Kernel) (M N K : Int) :
    Option Kernel :=
  cache (tuning_shape_key M N K)


/-! ## Specification-side predicates used by the theorems -/

/-- The entry of a family table is the least one whose key is at least M. -/
def isLeastGEEntry (M : Int) (t : List (Int × Kernel)) (e : Int × Kernel) : Prop :=
  e ∈ t ∧ M ≤ e.1 ∧ ∀ e' ∈ t, M ≤ e'.1 → e.1 ≤ e'.1

/-- The entry of a family table carrying the greatest key. -/
def isGreatestEntry (t : List (Int × Kernel)) (e : Int × Kernel) : Prop :=
  e ∈ t ∧ ∀ e' ∈ t, e'.1 ≤ e.1

/-! ## Helper lemmas -/

/-- Membership via an index witness: reduces to a syntactic check on
concrete lists, avoiding elementwise string comparisons. -/
theorem mem_of_get? {α : Type} :
    ∀ (l : List α) (i : Nat) (a : α), l.get? i = some a → a ∈ l := by
  intro l
  induction l with
  | nil => intro i a h; cases i <;> cases h
  | cons hd tl ih =>
    intro i a h
    cases i with
    | zero => cases h; exact List.mem_cons_self _ _
    | succ j => exact List.mem_cons_of_mem _ (ih j a h)

theorem intTupleEq3_eq_true_iff (t u : Int × Int × Int) :
    intTupleEq3 t u = true ↔ t = u := by
  obtain ⟨a, b, c⟩ := t
  obtain ⟨d, e, f⟩ := u
  simp [intTupleEq3, Prod.ext_iff, and_assoc]

theorem intTupleEq2_eq_true_iff (t u : Int × Int) :
    intTupleEq2 t u = true ↔ t = u := by
  obtain ⟨a, b⟩ := t
  obtain ⟨c, d⟩ := u
  simp [intTupleEq2, Prod.ext_iff]

/-- Hash-map lookup by key equality: when the key list is duplicate-free,
searching for a present key finds exactly its entry. -/
theorem find_key3_eq_of_mem {α : Type} (l : List ((Int × Int × Int) × α))
    (hnd : (l.map Prod.fst).Nodup) (k : Int × Int × Int) (v : α)
    (hmem : (k, v) ∈ l) :
    l.find? (fun p => intTupleEq3 p.1 k) = some (k, v) := by
  induction l with
  | nil => cases hmem
  | cons hd tl ih =>
    rcases List.mem_cons.mp hmem with heq | htl
    · subst heq
      exact List.find?_cons_of_pos _ ((intTupleEq3_eq_true_iff _ _).mpr rfl)
    · have hndtl : (tl.map Prod.fst).Nodup := (List.nodup_cons.mp hnd).2
      have hkey : hd.1 ≠ k := by
        intro hk
        exact (List.nodup_cons.mp hnd).1
          (hk ▸ List.mem_map.mpr ⟨(k, v), htl, rfl⟩)
      have hpred : ¬ (intTupleEq3 hd.1 k = true) := by
        simpa [intTupleEq3_eq_true_iff] using hkey
      rw [List.find?_cons_of_neg _ (by simpa using hpred)]
      exact ih hndtl htl

/-- Keys of the exact-shape lookup table are pairwise distinct. -/
theorem rowwise_lookup_dispatch_keys_nodup :
    (rowwise_lookup_dispatch.map Prod.fst).Nodup := by decide

/-- Every family table registered in NK_lookup_table is nonempty and its
keys are strictly ascending (the std::map iteration-order invariant). -/
theorem NK_lookup_table_sorted :
    ∀ p ∈ NK_lookup_table,
      p.2 ≠ [] ∧ List.Pairwise (fun a b : Int × Kernel => a.1 < b.1) p.2 := by
  decide

/-! ## Claim theorems -/

/-- Claim C1: for every call to a rowwise GEMM dispatch entry point
(f8f8_rowwise_wrapper / f8f8_rowwise_preshuffle_wrapper) in which any of
M, N, K equals zero, the operation returns a zero-valued tensor of the
correct output shape (the input shape with the last dimension replaced by
N) and performs no kernel selection and no kernel invocation (the `zeros`
outcome is produced before the dispatch chain runs). -/
theorem zero_dim_short_circuit (xqSizes : List Nat) (N K : Nat)
    (h : size_to_dim (xqSizes.length - 1) xqSizes = 0 ∨ N = 0 ∨ K = 0) :
    f8f8_rowwise_wrapper xqSizes N K = .zeros (xqSizes.dropLast ++ [N]) ∧
    f8f8_rowwise_preshuffle_wrapper xqSizes N K = .zeros (xqSizes.dropLast ++ [N]) := by
  constructor
  · simp only [f8f8_rowwise_wrapper]
    rw [if_pos h]
  · simp only [f8f8_rowwise_preshuffle_wrapper]
    rw [if_pos h]

/-- Witness for `zero_dim_short_circuit` at XQ of shape 0 x 4, N = 3,
K = 4. -/
theorem zero_dim_short_circuit_witness :
    (size_to_dim ([0, 4].length - 1) [0, 4] = 0 ∨ 3 = 0 ∨ 4 = 0) ∧
    (f8f8_rowwise_wrapper [0, 4] 3 4 = .zeros [0, 3] ∧
     f8f8_rowwise_preshuffle_wrapper [0, 4] 3 4 = .zeros [0, 3]) :=
  ⟨by decide, zero_dim_short_circuit [0, 4] 3 4 (by decide)⟩

/-- Claim C10: the public bf16_gemm entry point requires M at least 128,
N at least 128 and K at least 256; every input below these bounds
(including any zero dimension) fails with an error rather than returning
an output, so this operator has no zero-dimension short-circuit. -/
theorem bf16_gemm_min_shape_required (M N K : Int)
    (h : M < 128 ∨ N < 128 ∨ K < 256) :
    bf16_gemm M N K = .error "Minimum supported M,N,K is 128,128,256." := by
  have himp : ∀ cfg, bf16_gemm_impl cfg M N K =
      .error "Minimum supported M,N,K is 128,128,256." := by
    intro cfg
    unfold bf16_gemm_impl
    rw [if_neg (by rintro ⟨h1, h2, h3⟩; rcases h with h | h | h <;> omega)]
  unfold bf16_gemm
  dsimp only
  split_ifs <;> exact himp _

/-- Witness for `bf16_gemm_min_shape_required` at the zero-dimension
input M = 0, N = 128, K = 256. -/
theorem bf16_gemm_min_shape_required_witness :
    ((0 : Int) < 128 ∨ (128 : Int) < 128 ∨ (256 : Int) < 256) ∧
    bf16_gemm 0 128 256 = .error "Minimum supported M,N,K is 128,128,256." :=
  ⟨by decide, bf16_gemm_min_shape_required 0 128 256 (by decide)⟩

/-- Counterexample to claim C5: the claim asserts that both the equality
and the hash of the tuple keys distinguish permuted keys.  Equality does,
but IntTupleHash combines the componentwise hashes with XOR, which is
commutative, so permuted keys always collide.  Concretely, the two real
family keys (1024, 5120) and (5120, 1024) of NK_lookup_table are unequal
yet hash identically, and likewise for the exact-table-shaped triples
(16, 1280, 8192) and (1280, 16, 8192). -/
theorem tuple_hash_claim_counterexample :
    intTupleEq2 (1024, 5120) (5120, 1024) = false ∧
    intTupleHash2 stdHashInt (1024, 5120) = intTupleHash2 stdHashInt (5120, 1024) ∧
    intTupleEq3 (16, 1280, 8192) (1280, 16, 8192) = false ∧
    intTupleHash3 stdHashInt (16, 1280, 8192) = intTupleHash3 stdHashInt (1280, 16, 8192) := by
  decide

/-- Claim C5 (amended): the equality used by the shape-keyed tables is
order-sensitive and exact, so keys whose components are permutations of
one another are distinct keys; but the hash (XOR of componentwise hashes)
is permutation-invariant — it does not distinguish permuted keys, for any
componentwise hash function. -/
theorem tuple_key_eq_exact_hash_xor_symmetric (h : Int → Nat) (a b c : Int)
    (hab : a ≠ b) :
    intTupleEq3 (a, b, c) (b, a, c) = false ∧
    intTupleHash3 h (a, b, c) = intTupleHash3 h (b, a, c) ∧
    intTupleEq2 (a, b) (b, a) = false ∧
    intTupleHash2 h (a, b) = intTupleHash2 h (b, a) := by
  have hb : (a == b) = false := beq_eq_false_iff_ne.mpr hab
  refine ⟨?_, ?_, ?_, ?_⟩
  · simp [intTupleEq3, hb]
  · show (h a ^^^ h b) ^^^ h c = (h b ^^^ h a) ^^^ h c
    rw [Nat.xor_comm (h a) (h b)]
  · simp [intTupleEq2, hb]
  · exact Nat.xor_comm (h a) (h b)

/-- Witness for `tuple_key_eq_exact_hash_xor_symmetric` at the modelled
std::hash and components 1, 2, 3. -/
theorem tuple_key_eq_exact_hash_xor_symmetric_witness :
    (1 : Int) ≠ 2 ∧
    (intTupleEq3 (1, 2, 3) (2, 1, 3) = false ∧
     intTupleHash3 stdHashInt (1, 2, 3) = intTupleHash3 stdHashInt (2, 1, 3) ∧
     intTupleEq2 (1, 2) (2, 1) = false ∧
     intTupleHash2 stdHashInt (1, 2) = intTupleHash2 stdHashInt (2, 1)) :=
  ⟨by decide, tuple_key_eq_exact_hash_xor_symmetric stdHashInt 1 2 3 (by decide)⟩

/-- Claim C8: the tuning-cache key is formed by rounding each of M, N, K
up to the next power of two, so any two query shapes whose dimensions
round to the same power-of-two triple produce the same shape key and hence
consult the same cache entry (sharing its measurement). -/
theorem tuning_cache_pow2_key_sharing (cache : String → Option Kernel)
    (M N K Mp Np Kp : Int)
    (hM : nextPowerOf2 M = nextPowerOf2 Mp)
    (hN : nextPowerOf2 N = nextPowerOf2 Np)
    (hK : nextPowerOf2 K = nextPowerOf2 Kp) :
    tuning_shape_key M N K = tuning_shape_key Mp Np Kp ∧
    tuning_cache_entry cache M N K = tuning_cache_entry cache Mp Np Kp := by
  have hkey : tuning_shape_key M N K = tuning_shape_key Mp Np Kp := by
    unfold tuning_shape_key
    rw [hM, hN, hK]
  exact ⟨hkey, by unfold tuning_cache_entry; rw [hkey]⟩

/-- Witness for `tuning_cache_pow2_key_sharing`: the shapes (5, 6, 9) and
(8, 7, 16) round componentwise to the same power-of-two triple (8, 8, 16)
and therefore share the cache entry of any cache. -/
theorem tuning_cache_pow2_key_sharing_witness :
    (nextPowerOf2 5 = nextPowerOf2 8 ∧ nextPowerOf2 6 = nextPowerOf2 7 ∧
      nextPowerOf2 9 = nextPowerOf2 16) ∧
    (tuning_shape_key 5 6 9 = tuning_shape_key 8 7 16 ∧
     tuning_cache_entry (fun _ => none) 5 6 9 =
       tuning_cache_entry (fun _ => none) 8 7 16) :=
  ⟨by decide,
   tuning_cache_pow2_key_sharing (fun _ => none) 5 6 9 8 7 16
     (by decide) (by decide) (by decide)⟩

set_option maxHeartbeats 2000000 in
/-- Claim C3: the heuristic selectors are total over strictly positive
shapes — for every (M, N, K) with all of M, N, K positive,
rowwise_heuristic_dispatch returns a kernel from the manifest catalog and
rowwise_preshuffle_heuristic_dispatch returns a kernel from the preshuffle
catalog; no branch fails to produce a kernel. -/
theorem heuristic_dispatch_total (M N K : Int)
    (hM : 0 < M) (hN : 0 < N) (hK : 0 < K) :
    rowwise_heuristic_dispatch M N K ∈ rowwise_kernel_catalog ∧
    rowwise_preshuffle_heuristic_dispatch M N K ∈ preshuffle_kernel_catalog := by
  constructor
  · unfold rowwise_heuristic_dispatch
    split_ifs <;>
      first
        | exact mem_of_get? _ 1 _ rfl
        | exact mem_of_get? _ 6 _ rfl
        | exact mem_of_get? _ 7 _ rfl
        | exact mem_of_get? _ 12 _ rfl
        | exact mem_of_get? _ 16 _ rfl
        | exact mem_of_get? _ 19 _ rfl
        | exact mem_of_get? _ 20 _ rfl
        | exact mem_of_get? _ 21 _ rfl
        | exact mem_of_get? _ 27 _ rfl
  · unfold rowwise_preshuffle_heuristic_dispatch
    split_ifs <;>
      first
        | exact mem_of_get? _ 0 _ rfl
        | exact mem_of_get? _ 1 _ rfl
        | exact mem_of_get? _ 2 _ rfl
        | exact mem_of_get? _ 3 _ rfl
        | exact mem_of_get? _ 4 _ rfl
        | exact mem_of_get? _ 5 _ rfl
        | exact mem_of_get? _ 6 _ rfl
        | exact mem_of_get? _ 7 _ rfl
        | exact mem_of_get? _ 8 _ rfl
        | exact mem_of_get? _ 9 _ rfl
        | exact mem_of_get? _ 10 _ rfl

/-- Witness for `heuristic_dispatch_total` at (M, N, K) = (5, 6, 7). -/
theorem heuristic_dispatch_total_witness :
    ((0 : Int) < 5 ∧ (0 : Int) < 6 ∧ (0 : Int) < 7) ∧
    (rowwise_heuristic_dispatch 5 6 7 ∈ rowwise_kernel_catalog ∧
     rowwise_preshuffle_heuristic_dispatch 5 6 7 ∈ preshuffle_kernel_catalog) :=
  ⟨by decide, heuristic_dispatch_total 5 6 7 (by decide) (by decide) (by decide)⟩

/-! ## Family-table lookup lemmas and claims C7, C4, C6 -/

/-- Claim C7: before the exact-key lookup, the runtime M is rounded up to
the nearest bucket in the fixed set 16 / 32 / 64 / 128 (M above 128 is
used unchanged), and an exact match on the bucketed triple returns that
kernel immediately via the exact path, without consulting the family
tables or the heuristic. -/
theorem exact_lookup_bucketing (M N K : Int) (hM : 1 ≤ M) (kernel : Kernel)
    (hmem : ((padded_m_of M, N, K), kernel) ∈ rowwise_lookup_dispatch) :
    ((M ≤ 128 → padded_m_of M ∈ ([16, 32, 64, 128] : List Int) ∧
        M ≤ padded_m_of M ∧
        ∀ b ∈ ([16, 32, 64, 128] : List Int), M ≤ b → padded_m_of M ≤ b) ∧
      (128 < M → padded_m_of M = M)) ∧
    rowwise_dispatch M N K = (.exact, some kernel) := by
  refine ⟨⟨?_, ?_⟩, ?_⟩
  · intro h128
    unfold padded_m_of
    split_ifs <;>
      refine ⟨by decide, by omega, ?_⟩ <;>
      · intro b hb hMb
        fin_cases hb <;> omega
  · intro h128
    unfold padded_m_of
    split_ifs <;> omega
  · unfold rowwise_dispatch
    dsimp only
    rw [find_key3_eq_of_mem _ rowwise_lookup_dispatch_keys_nodup _ _ hmem]

/-- Witness for `exact_lookup_bucketing` at M = 10 (bucketed to 16), on
the first exact-table entry (16, 1280, 8192). -/
theorem exact_lookup_bucketing_witness :
    ((1 : Int) ≤ 10 ∧
      ((padded_m_of 10, (1280 : Int), (8192 : Int)),
        ("fp8fp8bf16_rowwise_128x16x32x128_16x16_1x1_8x16x1_8x16x1_1x16x1x8_4x4x1_1x1_interwave_v2" : Kernel))
        ∈ rowwise_lookup_dispatch) ∧
    (((10 : Int) ≤ 128 → padded_m_of 10 ∈ ([16, 32, 64, 128] : List Int) ∧
        (10 : Int) ≤ padded_m_of 10 ∧
        ∀ b ∈ ([16, 32, 64, 128] : List Int), (10 : Int) ≤ b → padded_m_of 10 ≤ b) ∧
      ((128 : Int) < 10 → padded_m_of 10 = 10)) ∧
    rowwise_dispatch 10 1280 8192 =
      (.exact, some "fp8fp8bf16_rowwise_128x16x32x128_16x16_1x1_8x16x1_8x16x1_1x16x1x8_4x4x1_1x1_interwave_v2") :=
  ⟨⟨by decide, mem_of_get? _ 0 _ rfl⟩,
   exact_lookup_bucketing 10 1280 8192 (by decide) _ (mem_of_get? _ 0 _ rfl)⟩

/-- Membership extraction for Option.getLast?. -/
theorem mem_of_getLast?_eq {α : Type} {l : List α} {a : α}
    (h : l.getLast? = some a) : a ∈ l := by
  rcases List.mem_getLast?_eq_getLast (show a ∈ l.getLast? by simp [Option.mem_def, h]) with
    ⟨hne, rfl⟩
  exact List.getLast_mem hne

/-- The entry chosen by the family-table lookup is an entry of the table. -/
theorem nk_lookup_entry_mem (M : Int) (t : List (Int × Kernel)) (e : Int × Kernel)
    (he : rowwise_nk_lookup_entry M t = some e) : e ∈ t := by
  unfold rowwise_nk_lookup_entry at he
  cases hf : t.find? (fun p => decide (M ≤ p.1)) with
  | some p =>
    rw [hf] at he
    cases he
    exact List.mem_of_find?_eq_some hf
  | none =>
    rw [hf] at he
    exact mem_of_getLast?_eq he

/-- Lookup on a table whose head key already reaches M returns the head. -/
theorem nk_lookup_entry_of_le (M : Int) (hd : Int × Kernel)
    (tl : List (Int × Kernel)) (hM : M ≤ hd.1) :
    rowwise_nk_lookup_entry M (hd :: tl) = some hd := by
  unfold rowwise_nk_lookup_entry
  rw [List.find?_cons_of_pos _ (by simpa using hM)]

/-- Lookup on a singleton table whose key is below M clamps to it. -/
theorem nk_lookup_entry_singleton (M : Int) (hd : Int × Kernel)
    (hM : ¬ M ≤ hd.1) :
    rowwise_nk_lookup_entry M [hd] = some hd := by
  unfold rowwise_nk_lookup_entry
  rw [List.find?_cons_of_neg _ (by simpa using hM)]
  rfl

/-- Skipping a head entry whose key is below M. -/
theorem nk_lookup_entry_cons_cons (M : Int) (hd h2 : Int × Kernel)
    (t2 : List (Int × Kernel)) (hM : ¬ M ≤ hd.1) :
    rowwise_nk_lookup_entry M (hd :: h2 :: t2) =
      rowwise_nk_lookup_entry M (h2 :: t2) := by
  unfold rowwise_nk_lookup_entry
  rw [List.find?_cons_of_neg _ (by simpa using hM), List.getLast?_cons_cons]

/-- Characterization of the family-table lookup on a sorted nonempty
table: it returns the least entry whose key reaches M, and when every key
is below M it returns the greatest entry. -/
theorem nk_lookup_entry_spec (M : Int) :
    ∀ (t : List (Int × Kernel)),
      List.Pairwise (fun a b : Int × Kernel => a.1 < b.1) t → t ≠ [] →
      ((∃ e, isLeastGEEntry M t e ∧ rowwise_nk_lookup_entry M t = some e) ∨
       ((∀ e ∈ t, e.1 < M) ∧
        ∃ e, isGreatestEntry t e ∧ rowwise_nk_lookup_entry M t = some e)) := by
  intro t
  induction t with
  | nil => intro _ hne; exact absurd rfl hne
  | cons hd tl ih =>
    intro hs _
    have hpw := List.pairwise_cons.mp hs
    by_cases hM : M ≤ hd.1
    · left
      refine ⟨hd, ⟨List.mem_cons_self _ _, hM, ?_⟩, nk_lookup_entry_of_le M hd tl hM⟩
      intro e' he' _
      rcases List.mem_cons.mp he' with rfl | htl
      · exact le_refl _
      · exact le_of_lt (hpw.1 e' htl)
    · cases tl with
      | nil =>
        right
        constructor
        · intro e he
          rcases List.mem_cons.mp he with rfl | h
          · exact lt_of_not_le hM
          · cases h
        · refine ⟨hd, ⟨List.mem_cons_self _ _, ?_⟩,
            nk_lookup_entry_singleton M hd hM⟩
          intro e' he'
          rcases List.mem_cons.mp he' with rfl | h
          · exact le_refl _
          · cases h
      | cons h2 t2 =>
        have hstep := nk_lookup_entry_cons_cons M hd h2 t2 hM
        rcases ih hpw.2 (List.cons_ne_nil _ _) with
          ⟨e, ⟨hmem, hle, hmin⟩, heq⟩ | ⟨hall, e, ⟨hmem, hmax⟩, heq⟩
        · left
          refine ⟨e, ⟨List.mem_cons_of_mem _ hmem, hle, ?_⟩, hstep.trans heq⟩
          intro e' he' hMe'
          rcases List.mem_cons.mp he' with rfl | htl
          · exact absurd hMe' hM
          · exact hmin e' htl hMe'
        · right
          constructor
          · intro e' he'
            rcases List.mem_cons.mp he' with rfl | htl
            · exact lt_of_not_le hM
            · exact hall e' htl
          · refine ⟨e, ⟨List.mem_cons_of_mem _ hmem, ?_⟩, hstep.trans heq⟩
            intro e' he'
            rcases List.mem_cons.mp he' with rfl | htl
            · exact le_of_lt (hpw.1 e hmem)
            · exact hmax e' htl

/-- Claim C4: for every (N, K) family table registered in NK_lookup_table
and every query M, the lookup returns the kernel at the smallest table key
that is at least M; if M exceeds every key, it returns the kernel at the
largest key. -/
theorem nk_lookup_lower_bound_clamp (nk : Int × Int) (t : List (Int × Kernel))
    (hmem : (nk, t) ∈ NK_lookup_table) (M : Int) :
    (∃ e, isLeastGEEntry M t e ∧ rowwise_nk_lookup M t = some e.2) ∨
    ((∀ e ∈ t, e.1 < M) ∧
     ∃ e, isGreatestEntry t e ∧ rowwise_nk_lookup M t = some e.2) := by
  have h := NK_lookup_table_sorted _ hmem
  rcases nk_lookup_entry_spec M t h.2 h.1 with ⟨e, he, heq⟩ | ⟨hall, e, he, heq⟩
  · exact .inl ⟨e, he, by unfold rowwise_nk_lookup; rw [heq]; rfl⟩
  · exact .inr ⟨hall, e, he, by unfold rowwise_nk_lookup; rw [heq]; rfl⟩

/-- Witness for `nk_lookup_lower_bound_clamp` on the (7168, 8192) family
table at M = 100. -/
theorem nk_lookup_lower_bound_clamp_witness :
    (((7168, 8192), N_7168_K_8192_dispatch_table) ∈ NK_lookup_table) ∧
    ((∃ e, isLeastGEEntry 100 N_7168_K_8192_dispatch_table e ∧
        rowwise_nk_lookup 100 N_7168_K_8192_dispatch_table = some e.2) ∨
     ((∀ e ∈ N_7168_K_8192_dispatch_table, e.1 < 100) ∧
      ∃ e, isGreatestEntry N_7168_K_8192_dispatch_table e ∧
        rowwise_nk_lookup 100 N_7168_K_8192_dispatch_table = some e.2)) :=
  ⟨mem_of_get? _ 0 _ rfl,
   nk_lookup_lower_bound_clamp (7168, 8192) _ (mem_of_get? _ 0 _ rfl) 100⟩

/-- Monotonicity of the family-table lookup on sorted tables: a larger
query never selects a smaller table key. -/
theorem nk_lookup_entry_mono (M M' : Int) (hMM : M < M') :
    ∀ (t : List (Int × Kernel)),
      List.Pairwise (fun a b : Int × Kernel => a.1 < b.1) t →
      ∀ e e', rowwise_nk_lookup_entry M t = some e →
        rowwise_nk_lookup_entry M' t = some e' → e.1 ≤ e'.1 := by
  intro t
  induction t with
  | nil =>
    intro _ e e' he _
    simp [rowwise_nk_lookup_entry] at he
  | cons hd tl ih =>
    intro hs e e' he he'
    have hpw := List.pairwise_cons.mp hs
    by_cases hM : M ≤ hd.1
    · rw [nk_lookup_entry_of_le M hd tl hM] at he
      cases he
      have hmem' := nk_lookup_entry_mem M' _ _ he'
      rcases List.mem_cons.mp hmem' with rfl | htl
      · exact le_refl _
      · exact le_of_lt (hpw.1 e' htl)
    · have hM' : ¬ M' ≤ hd.1 := fun h => hM ((le_of_lt hMM).trans h)
      cases tl with
      | nil =>
        rw [nk_lookup_entry_singleton M hd hM] at he
        rw [nk_lookup_entry_singleton M' hd hM'] at he'
        cases he
        cases he'
        exact le_refl _
      | cons h2 t2 =>
        rw [nk_lookup_entry_cons_cons M hd h2 t2 hM] at he
        rw [nk_lookup_entry_cons_cons M' hd h2 t2 hM'] at he'
        exact ih hpw.2 e e' he he'

/-- Claim C6: for a fixed (N, K) family table and queries M less than M',
the table key whose kernel is selected for M' is at least the table key
selected for M — the lower-bound-with-clamp policy is monotone. -/
theorem nk_lookup_monotone (nk : Int × Int) (t : List (Int × Kernel))
    (hmem : (nk, t) ∈ NK_lookup_table) (M M' : Int) (hMM : M < M')
    (e e' : Int × Kernel)
    (he : rowwise_nk_lookup_entry M t = some e)
    (he' : rowwise_nk_lookup_entry M' t = some e') :
    e.1 ≤ e'.1 :=
  nk_lookup_entry_mono M M' hMM t (NK_lookup_table_sorted _ hmem).2 e e' he he'

/-- Witness for `nk_lookup_monotone` on the (7168, 8192) family table:
query 100 selects key 128, query 600 selects key 640. -/
theorem nk_lookup_monotone_witness :
    ((((7168, 8192), N_7168_K_8192_dispatch_table) ∈ NK_lookup_table) ∧
     (100 : Int) < 600 ∧
     rowwise_nk_lookup_entry 100 N_7168_K_8192_dispatch_table =
       some (128, "fp8fp8bf16_rowwise_256x64x64x512_32x32_1x1_32x8x1_32x8x1_1x32x1x8_8x8x1_1x1_intrawave_v3") ∧
     rowwise_nk_lookup_entry 600 N_7168_K_8192_dispatch_table =
       some (640, "fp8fp8bf16_rowwise_256x128x128x256_32x32_2x2_16x16x1_16x16x1_1x32x1x8_8x8x1_1x1_intrawave_v3")) ∧
    (128 : Int) ≤ 640 :=
  ⟨⟨mem_of_get? _ 0 _ rfl, by decide, by decide, by decide⟩,
   nk_lookup_monotone (7168, 8192) _ (mem_of_get? _ 0 _ rfl) 100 600 (by decide)
     (128, "fp8fp8bf16_rowwise_256x64x64x512_32x32_1x1_32x8x1_32x8x1_1x32x1x8_8x8x1_1x1_intrawave_v3")
     (640, "fp8fp8bf16_rowwise_256x128x128x256_32x32_2x2_16x16x1_16x16x1_1x32x1x8_8x8x1_1x1_intrawave_v3")
     (by decide) (by decide)⟩

/-! ## Slot-counter characterization and claim C2 -/

/-- Overwriting the element just past a processed prefix. -/
theorem set_append_length {α : Type} :
    ∀ (pre : List α) (x r : α) (rs : List α),
      (pre ++ r :: rs).set pre.length x = pre ++ x :: rs := by
  intro pre x r rs
  induction pre with
  | nil => rfl
  | cons p ps ih => simpa [List.set] using ih

/-- The sequential atomic-slot-counter fold: starting from a processed
prefix `pre` and unwritten suffix `rest`, processing indices `l` writes
the records of the accepted indices contiguously after `pre`, leaving the
remaining tail of `rest` untouched; the counter advances by the number of
accepted indices. -/
theorem slot_fold_characterization {α : Type} (f : Nat → α) (P : Nat → Prop)
    [DecidablePred P] :
    ∀ (l : List Nat) (pre rest : List α),
      (l.countP fun i => decide (P i)) ≤ rest.length →
      (l.foldl (fun st i => if P i then (st.1.set st.2 (f i), st.2 + 1) else st)
        (pre ++ rest, pre.length)) =
      (pre ++ (l.filterMap fun i => if P i then some (f i) else none) ++
        rest.drop (l.countP fun i => decide (P i)),
       pre.length + (l.countP fun i => decide (P i))) := by
  intro l
  induction l with
  | nil => intro pre rest h; simp
  | cons i l ih =>
    intro pre rest h
    by_cases hp : P i
    · have hcount : (l.countP fun i => decide (P i)) + 1 ≤ rest.length := by
        simpa [List.countP_cons, hp] using h
      cases rest with
      | nil => simp at hcount
      | cons r rs =>
        have hrs : (l.countP fun i => decide (P i)) ≤ rs.length := by
          simpa using hcount
        have hstate : (pre ++ r :: rs).set pre.length (f i) = (pre ++ [f i]) ++ rs := by
          rw [set_append_length]
          simp
        have hlen : pre.length + 1 = (pre ++ [f i]).length := by simp
        have hkey := ih (pre ++ [f i]) rs hrs
        simp only [List.foldl_cons, if_pos hp, hstate, hlen, hkey]
        refine Prod.ext ?_ ?_
        · simp [List.filterMap_cons, hp, List.countP_cons, List.append_assoc]
        · simp [List.countP_cons, hp]
          try omega
    · have hcount : ((i :: l).countP fun i => decide (P i)) =
          l.countP fun i => decide (P i) := by
        simp [List.countP_cons, hp]
      simp only [List.foldl_cons, if_neg hp, List.filterMap_cons, hcount]
      rw [ih pre rest (hcount ▸ h)]

/-- Length of the emitted-record list as a count of accepted indices. -/
theorem length_filterMap_ite {α : Type} (f : Nat → α) (P : Nat → Prop)
    [DecidablePred P] (l : List Nat) :
    (l.filterMap fun i => if P i then some (f i) else none).length =
      l.countP fun i => decide (P i) := by
  induction l with
  | nil => rfl
  | cons i l ih => by_cases hp : P i <;> simp [List.filterMap_cons, List.countP_cons, hp, ih]

/-- The argument buffer written by set_kernel_args is exactly the records
of the all-dimensions-positive groups, in group order and contiguous
slots, followed by untouched default records. -/
theorem set_kernel_args_characterization (mSizes offsets : Option (List Int))
    (M N K : Int) (G : Nat) (ty : Option GroupedGemmInputType) :
    set_kernel_args mSizes offsets M N K G ty =
      emitted_group_records mSizes offsets M N K G ty ++
        List.replicate
          (G - (emitted_group_records mSizes offsets M N K G ty).length)
          defaultGroupArgs := by
  have hbound : ((List.range G).countP fun i =>
      decide (0 < (resolveGroupArgs mSizes offsets M N K ty i).M ∧
              0 < (resolveGroupArgs mSizes offsets M N K ty i).N ∧
              0 < (resolveGroupArgs mSizes offsets M N K ty i).K)) ≤
      (List.replicate G defaultGroupArgs).length := by
    rw [List.length_replicate]
    conv_rhs => rw [← List.length_range G]
    exact List.countP_le_length _
  have key := slot_fold_characterization
      (fun i => resolveGroupArgs mSizes offsets M N K ty i)
      (fun i => 0 < (resolveGroupArgs mSizes offsets M N K ty i).M ∧
                0 < (resolveGroupArgs mSizes offsets M N K ty i).N ∧
                0 < (resolveGroupArgs mSizes offsets M N K ty i).K)
      (List.range G) [] (List.replicate G defaultGroupArgs) hbound
  have h1 : set_kernel_args mSizes offsets M N K G ty =
      [] ++ ((List.range G).filterMap fun i =>
        if (0 < (resolveGroupArgs mSizes offsets M N K ty i).M ∧
            0 < (resolveGroupArgs mSizes offsets M N K ty i).N ∧
            0 < (resolveGroupArgs mSizes offsets M N K ty i).K) then
          some (resolveGroupArgs mSizes offsets M N K ty i) else none) ++
        (List.replicate G defaultGroupArgs).drop
          ((List.range G).countP fun i =>
            decide (0 < (resolveGroupArgs mSizes offsets M N K ty i).M ∧
                    0 < (resolveGroupArgs mSizes offsets M N K ty i).N ∧
                    0 < (resolveGroupArgs mSizes offsets M N K ty i).K)) :=
    congrArg Prod.fst key
  rw [List.nil_append] at h1
  have h2 : emitted_group_records mSizes offsets M N K G ty =
      (List.range G).filterMap fun i =>
        if (0 < (resolveGroupArgs mSizes offsets M N K ty i).M ∧
            0 < (resolveGroupArgs mSizes offsets M N K ty i).N ∧
            0 < (resolveGroupArgs mSizes offsets M N K ty i).K) then
          some (resolveGroupArgs mSizes offsets M N K ty i) else none := rfl
  rw [h2, h1, List.drop_replicate]
  rw [← length_filterMap_ite]

/-- Claim C2: in grouped dispatch with per-group size descriptors, the
argument-building step emits a record for exactly the groups whose
resolved M, N and K are all nonzero, each in a distinct (contiguous) slot
in group order, with the number of emitted records equal to the number of
such groups rather than the nominal group count — the remaining slots keep
the default all-zero record.  In particular M_sizes = [0, 5, 0, 3] (with
N = K = 512) yields exactly 2 records, for the groups of size 5 and 3. -/
theorem grouped_args_nonzero_groups_only :
    (∀ (mSizes offsets : Option (List Int)) (M N K : Int) (G : Nat)
        (ty : Option GroupedGemmInputType),
        set_kernel_args mSizes offsets M N K G ty =
          emitted_group_records mSizes offsets M N K G ty ++
            List.replicate
              (G - (emitted_group_records mSizes offsets M N K G ty).length)
              defaultGroupArgs ∧
        (emitted_group_records mSizes offsets M N K G ty).length =
          (List.range G).countP fun i =>
            decide (0 < (resolveGroupArgs mSizes offsets M N K ty i).M ∧
                    0 < (resolveGroupArgs mSizes offsets M N K ty i).N ∧
                    0 < (resolveGroupArgs mSizes offsets M N K ty i).K)) ∧
    set_kernel_args (some [0, 5, 0, 3]) none 8 512 512 4 none =
      [⟨0, 262144, 512, 0, 0, 5, 512, 512, 512, 512, 512⟩,
       ⟨2560, 786432, 1536, 5, 2560, 3, 512, 512, 512, 512, 512⟩,
       defaultGroupArgs, defaultGroupArgs] ∧
    (emitted_group_records (some [0, 5, 0, 3]) none 8 512 512 4 none).length = 2 := by
  refine ⟨fun mSizes offsets M N K G ty =>
    ⟨set_kernel_args_characterization mSizes offsets M N K G ty,
     length_filterMap_ite _ _ _⟩, ?_, ?_⟩
  · decide
  · decide

/-! ## Claim C9: minimum N / K validation of the grouped entry points -/

/-- Counterexample to claim C9: the grouped entry point
f8f8bf16_rowwise_grouped_mm performs no minimum-512 validation on N or K.
At the valid 2D-3D input XQ = (64, 256), WQ = (4, 256, 256) — i.e.
N = K = 256, both below 512 — the call passes validation and proceeds to
kernel selection (outcome `launch`) instead of signalling an
invalid-argument failure. -/
theorem grouped_mm_no_min_nk_check_counterexample :
    f8f8bf16_rowwise_grouped_mm [64, 256] [4, 256, 256] [64] [4, 256]
        (some 4) [64, 256] = .launch 4 16 256 256 ∧
    (256 : Int) < 512 := by
  exact ⟨by decide, by decide⟩

/-- Claim C9 (amended): the grouped entry points that validate the
catalog minimum — _f8f8bf16_rowwise_grouped (list form),
f8f8bf16_rowwise_grouped_stacked, f8f8bf16_rowwise_grouped_dynamic and
bf16bf16bf16_grouped_stacked — signal an invalid-argument failure before
any kernel is selected or launched whenever a group's N or K is below 512;
f8f8bf16_rowwise_grouped_mm performs no such check (see the
counterexample). -/
theorem grouped_min_nk_validation :
    (∀ (XQ WQ : List (Int × Int)) (xc wc : Nat),
        (∃ w ∈ WQ, w.1 < 512 ∨ w.2 < 512) →
        ∃ msg, f8f8bf16_rowwise_grouped XQ WQ xc wc = .invalidArg msg) ∧
    (∀ (xq wq : List Int) (g xs ws : Int),
        wq.getD 1 0 < 512 ∨ wq.getD 2 0 < 512 →
        ∃ msg, f8f8bf16_rowwise_grouped_stacked xq wq g xs ws = .invalidArg msg) ∧
    (∀ (xq wq : List Int) (xs ws : Int),
        wq.getD 1 0 < 512 ∨ wq.getD 2 0 < 512 →
        ∃ msg, f8f8bf16_rowwise_grouped_dynamic xq wq xs ws = .invalidArg msg) ∧
    (∀ (x w : List Int) (g : Int),
        w.getD 1 0 < 512 ∨ w.getD 2 0 < 512 →
        ∃ msg, bf16bf16bf16_grouped_stacked x w g = .invalidArg msg) := by
  refine ⟨?_, ?_, ?_, ?_⟩
  · intro XQ WQ xc wc hw
    unfold f8f8bf16_rowwise_grouped
    split_ifs with hlen
    · obtain ⟨w, hwmem, hviol⟩ := hw
      have hsome :
          (WQ.find? fun w => !(decide (w.1 ≥ 512) && decide (w.2 ≥ 512))).isSome :=
        List.find?_isSome.mpr ⟨w, hwmem, by
          simp only [Bool.not_eq_true', Bool.and_eq_false_iff, decide_eq_false_iff_not,
            not_le]
          omega⟩
      obtain ⟨w', hw'⟩ := Option.isSome_iff_exists.mp hsome
      rw [hw']
      exact ⟨_, rfl⟩
    · exact ⟨_, rfl⟩
  · intro xq wq g xs ws hv
    cases hres : f8f8bf16_rowwise_grouped_stacked xq wq g xs ws with
    | invalidArg msg => exact ⟨msg, rfl⟩
    | emptyExit =>
      exfalso
      unfold f8f8bf16_rowwise_grouped_stacked at hres
      dsimp only at hres
      split_ifs at hres <;> first | omega | simp at hres
    | launch a b c d =>
      exfalso
      unfold f8f8bf16_rowwise_grouped_stacked at hres
      dsimp only at hres
      split_ifs at hres <;> first | omega | simp at hres
  · intro xq wq xs ws hv
    cases hres : f8f8bf16_rowwise_grouped_dynamic xq wq xs ws with
    | invalidArg msg => exact ⟨msg, rfl⟩
    | emptyExit =>
      exfalso
      unfold f8f8bf16_rowwise_grouped_dynamic at hres
      dsimp only at hres
      split_ifs at hres <;> first | omega | simp at hres
    | launch a b c d =>
      exfalso
      unfold f8f8bf16_rowwise_grouped_dynamic at hres
      dsimp only at hres
      split_ifs at hres <;> first | omega | simp at hres
  · intro x w g hv
    cases hres : bf16bf16bf16_grouped_stacked x w g with
    | invalidArg msg => exact ⟨msg, rfl⟩
    | emptyExit =>
      exfalso
      unfold bf16bf16bf16_grouped_stacked at hres
      dsimp only at hres
      split_ifs at hres <;> first | omega | simp at hres
    | launch a b c d =>
      exfalso
      unfold bf16bf16bf16_grouped_stacked at hres
      dsimp only at hres
      split_ifs at hres <;> first | omega | simp at hres

/-- Witness for `grouped_min_nk_validation`: each checking entry point on
a concrete shape family with N = K = 256 signals an invalid-argument
failure. -/
theorem grouped_min_nk_validation_witness :
    ((∃ w ∈ [((256 : Int), (256 : Int))], w.1 < 512 ∨ w.2 < 512) ∧
     ∃ msg, f8f8bf16_rowwise_grouped [(5, 256)] [(256, 256)] 1 1 = .invalidArg msg) ∧
    ((([1, 256, 256] : List Int).getD 1 0 < 512 ∨
        ([1, 256, 256] : List Int).getD 2 0 < 512) ∧
     ∃ msg, f8f8bf16_rowwise_grouped_stacked [10, 256] [1, 256, 256] 1 10 256 =
       .invalidArg msg) ∧
    ((([1, 256, 256] : List Int).getD 1 0 < 512 ∨
        ([1, 256, 256] : List Int).getD 2 0 < 512) ∧
     ∃ msg, f8f8bf16_rowwise_grouped_dynamic [1, 4, 256] [1, 256, 256] 4 256 =
       .invalidArg msg) ∧
    ((([1, 256, 256] : List Int).getD 1 0 < 512 ∨
        ([1, 256, 256] : List Int).getD 2 0 < 512) ∧
     ∃ msg, bf16bf16bf16_grouped_stacked [10, 256] [1, 256, 256] 1 =
       .invalidArg msg) :=
  ⟨⟨by decide, grouped_min_nk_validation.1 [(5, 256)] [(256, 256)] 1 1 (by decide)⟩,
   ⟨by decide, grouped_min_nk_validation.2.1 [10, 256] [1, 256, 256] 1 10 256 (by decide)⟩,
   ⟨by decide, grouped_min_nk_validation.2.2.1 [1, 4, 256] [1, 256, 256] 4 256 (by decide)⟩,
   ⟨by decide, grouped_min_nk_validation.2.2.2 [10, 256] [1, 256, 256] 1 (by decide)⟩⟩

end FBGemmDispatch
